import Mathlib

/-!
# Client portal (src/app.jsx): session, navigation and request orchestration

A shallow embedding of the React client in `src/app.jsx`.

* Every `useState` cell of the four components (`App`, `LoginScreen`,
  `PortalDashboard`, `DocumentUploader`), the browser's `localStorage`, the log of
  issued `fetch` requests and the console are fields of one record, `World`.
* An event handler is a function `World → World`.  An `async` handler takes the
  `Outcome` of its `await fetch(...)` as a second argument and does everything from the
  submit to the `finally` block; it is the composition of a `...Start` part (the
  statements up to the `await`) and a `...Settle` part (the statements after it).
  A `try` block gives a `TryResult`: the state at its end, or the state at the point
  where it threw, on which `catch` then runs.  The setter calls of one run of a
  handler part are applied together, before the next render (React batches them).
* A string coercion (`JsVal.toStr`), a property access (`JsVal.getField`) and the
  rendering of a value as a React child (`JsVal.childThrows`) can throw, as they do in
  JavaScript for values that `response.json()` can produce.
* `App.render` is React's commit after an update when no component throws while it
  renders: `App` shows the dashboard or the login screen depending on `token`; a
  component that is not rendered loses its state (it starts from its `useState`
  initial values when it is mounted again) and the effect of `PortalDashboard` runs on
  mount and when `token` has changed.  `App.renderThrows` says when a component throws
  while it renders; there is no error boundary, so React then removes the whole tree.
  `App.commit` is the commit with both cases.
* Values that come out of `response.json()` are JavaScript values (`JsVal`); a number
  is given by its decimal form `String(n)`.  A settled request is applied to the
  component instance that is mounted when it settles.  `localStorage` calls are taken
  not to throw.
* `Reachable` is the set of states of a run: a page load, then any sequence of user
  events and settling requests (`Event`), each followed by `App.commit`.

The definitions come first; the lemmas and the theorems C1 to C10 on the behaviour of
sign-in, sign-out, refresh, upload and the assistant follow.
-/

namespace Portal

/-! ## JavaScript values -/

/-- A JavaScript value: `undefined`, or what `JSON.parse` can produce.  A number is
given by `repr`, its decimal form `String(n)` (`0` for both zeros). -/
inductive JsVal where
  | undefined
  | null
  | bool (b : Bool)
  | num (repr : String)
  | str (s : String)
  | arr (xs : List JsVal)
  | obj (kvs : List (String × JsVal))

namespace JsVal

/-- The condition of `if (v)`, `v ? a : b`, `!v`, `v || w`, `v && w`. -/
def truthy : JsVal → Bool
  | undefined => false
  | null => false
  | bool b => b
  | num repr => repr != "0" && repr != "NaN"
  | str s => s != ""
  | arr _ => true
  | obj _ => true

/-- The operator `a || b`. -/
def or (a b : JsVal) : JsVal := if a.truthy then a else b

/-- Whether an object that `JSON.parse` made from the entries `kvs` has the own
property `k`. -/
def hasKey (k : String) (kvs : List (String × JsVal)) : Bool :=
  kvs.any (fun e => e.1 == k)

mutual
/-- The string coercion `String(v)`, as done by a template literal, by the operator
`'' + v` and by `localStorage.setItem`; `none` is the `TypeError` thrown for an object
whose own property `toString` hides `Object.prototype.toString` (a value from
`JSON.parse` is never callable), also when such an object is an element of an array
that is coerced. -/
def toStr : JsVal → Option String
  | undefined => some "undefined"
  | null => some "null"
  | bool b => some (if b then "true" else "false")
  | num repr => some repr
  | str s => some s
  | arr xs => joinStr xs
  | obj kvs => if hasKey "toString" kvs then none else some "[object Object]"
/-- The result of `Array.prototype.join` with the separator `,`. -/
def joinStr : List JsVal → Option String
  | [] => some ""
  | [x] => elemStr x
  | x :: y :: rest =>
    match elemStr x, joinStr (y :: rest) with
    | some a, some b => some (a ++ "," ++ b)
    | _, _ => none
/-- One element of a joined array: an element that is `null` or `undefined` gives the
empty string. -/
def elemStr : JsVal → Option String
  | undefined => some ""
  | null => some ""
  | bool b => some (if b then "true" else "false")
  | num repr => some repr
  | str s => some s
  | arr xs => joinStr xs
  | obj kvs => if hasKey "toString" kvs then none else some "[object Object]"
end

mutual
/-- Whether React throws when it is given the value as a child of an element: a plain
object is not a valid child, nor is an array that holds one; `null`, `undefined` and
booleans show nothing, numbers and strings show as text. -/
def childThrows : JsVal → Bool
  | arr xs => childrenThrow xs
  | obj _ => true
  | _ => false
/-- Whether one of the children throws. -/
def childrenThrow : List JsVal → Bool
  | [] => false
  | x :: xs => childThrows x || childrenThrow xs
end

/-- The value of the last entry with key `k`, as `JSON.parse` keeps the last
duplicate; `undefined` without such an entry. -/
def lookup (k : String) (kvs : List (String × JsVal)) : JsVal :=
  match kvs.reverse.find? (fun e => e.1 == k) with
  | some e => e.2
  | none => undefined

/-- The property access `data.k` for the property names the program reads
(`access_token`, `detail`, `answer`, `filename`, `text`, `type`, and the fields of a
document), none of which is on a prototype.  `none` is the `TypeError` thrown on `null`
and `undefined`; a primitive or an array has none of these properties. -/
def getField (data : JsVal) (k : String) : Option JsVal :=
  match data with
  | undefined => none
  | null => none
  | obj kvs => some (lookup k kvs)
  | _ => some undefined

mutual
/-- Whether two values are the same value, as React compares effect dependencies
(`Object.is`).  Arrays and objects are compared by content, which is the identity
of a value that stays in a state cell. -/
def same : JsVal → JsVal → Bool
  | undefined, undefined => true
  | null, null => true
  | bool a, bool b => a == b
  | num a, num b => a == b
  | str a, str b => a == b
  | arr xs, arr ys => sameList xs ys
  | obj xs, obj ys => sameFields xs ys
  | _, _ => false
/-- Element-wise `same`. -/
def sameList : List JsVal → List JsVal → Bool
  | [], [] => true
  | x :: xs, y :: ys => same x y && sameList xs ys
  | _, _ => false
/-- Entry-wise `same`. -/
def sameFields : List (String × JsVal) → List (String × JsVal) → Bool
  | [], [] => true
  | (k, x) :: xs, (l, y) :: ys => k == l && same x y && sameFields xs ys
  | _, _ => false
end

end JsVal

/-- The white space and line terminator code points that `String.prototype.trim`
removes. -/
def isJsWhiteSpace (c : Char) : Bool :=
  let n := c.toNat
  n == 9 || n == 10 || n == 11 || n == 12 || n == 13 || n == 32 || n == 160 ||
  n == 0x1680 || (0x2000 ≤ n && n ≤ 0x200A) || n == 0x2028 || n == 0x2029 ||
  n == 0x202F || n == 0x205F || n == 0x3000 || n == 0xFEFF

/-- The method `String.prototype.trim`. -/
def jsTrim (s : String) : String :=
  String.mk ((s.data.dropWhile isJsWhiteSpace).reverse.dropWhile isJsWhiteSpace).reverse

/-! ### The comparison with zero

The list branch of `renderContent` evaluates `documents.length > 0`.  For an array this
is the test for a non-empty array; for any other value `documents.length` is any value
at all, and the comparison converts it to a number. -/

/-- A decimal digit. -/
def isDecDigit (c : Char) : Bool := 48 ≤ c.toNat && c.toNat ≤ 57

/-- A digit of the radix 16, 8 or 2. -/
def isRadixDigit (radix : Nat) (c : Char) : Bool :=
  let n := c.toNat
  if radix = 16 then (48 ≤ n && n ≤ 57) || (65 ≤ n && n ≤ 70) || (97 ≤ n && n ≤ 102)
  else if radix = 8 then 48 ≤ n && n ≤ 55
  else 48 ≤ n && n ≤ 49

/-- The number that a run of decimal digits denotes. -/
def digitsToNat (ds : List Char) : Nat :=
  ds.foldl (fun n c => 10 * n + (c.toNat - 48)) 0

/-- The exponent part of a decimal literal (`e` or `E`, a sign, digits), which has to
reach the end of the text; `none` when the text is not one.  No exponent part is the
exponent 0. -/
def parseExponent : List Char → Option Int
  | [] => some 0
  | c :: rest =>
    if c.toNat == 101 || c.toNat == 69 then
      let negative := rest.head?.map (fun d => d.toNat == 45) == some true
      let signed := rest.head?.map (fun d => d.toNat == 45 || d.toNat == 43) == some true
      let ds := if signed then rest.drop 1 else rest
      if ds.isEmpty || !ds.all isDecDigit then none
      else some (if negative then -(digitsToNat ds : Int) else (digitsToNat ds : Int))
    else none

/-- Whether an unsigned decimal literal (`Infinity`, or digits with an optional
fraction and an optional exponent) denotes a number that is greater than zero as a
double: the value `m * 10 ^ e` is not rounded to zero when it exceeds `2 ^ (-1075)`. -/
def unsignedDecimalPositive (t : List Char) : Bool :=
  if t == "Infinity".data then true
  else
    let ip := t.takeWhile isDecDigit
    let afterInt := t.dropWhile isDecDigit
    let dotted := afterInt.head?.map (fun d => d.toNat == 46) == some true
    let fp := if dotted then (afterInt.drop 1).takeWhile isDecDigit else []
    let afterFrac := if dotted then (afterInt.drop 1).dropWhile isDecDigit else afterInt
    if ip.isEmpty && fp.isEmpty then false
    else
      match parseExponent afterFrac with
      | none => false
      | some ex =>
        let m := digitsToNat (ip ++ fp)
        let e : Int := ex - (fp.length : Int)
        decide (0 < m) && (decide (0 ≤ e) || decide (10 ^ e.natAbs < m * 2 ^ 1075))

/-- Whether the number that a string converts to (`Number(s)`) is greater than zero:
the text is trimmed; the empty text is 0; a text that is no numeric literal is `NaN`. -/
def stringPositive (s : String) : Bool :=
  let t := (jsTrim s).data
  match t with
  | [] => false
  | c :: rest =>
    let radixLiteral (radix : Nat) : Bool :=
      let ds := rest.drop 1
      !ds.isEmpty && ds.all (isRadixDigit radix) && ds.any (fun d => d.toNat != 48)
    let p := rest.head?.map (fun d => d.toNat)
    if c.toNat == 48 && (p == some 120 || p == some 88) then radixLiteral 16
    else if c.toNat == 48 && (p == some 111 || p == some 79) then radixLiteral 8
    else if c.toNat == 48 && (p == some 98 || p == some 66) then radixLiteral 2
    else if c.toNat == 45 then false
    else if c.toNat == 43 then unsignedDecimalPositive rest
    else unsignedDecimalPositive t

/-- The comparison `v > 0`; `none` when the conversion of `v` to a primitive throws. -/
def JsVal.gtZero : JsVal → Option Bool
  | .undefined => some false
  | .null => some false
  | .bool b => some b
  | .num repr => some (repr != "0" && repr != "NaN" && !repr.startsWith "-")
  | .str s => some (stringPositive s)
  | .arr xs => (JsVal.toStr (.arr xs)).map stringPositive
  | .obj kvs => (JsVal.toStr (.obj kvs)).map stringPositive

/-! ## The browser: persistent store, network, console -/

/-- The content of `localStorage`: keys with their string values. -/
abbrev Storage := List (String × String)

namespace Storage

/-- The call `localStorage.getItem(k)`; `none` is `null`. -/
def getItem (s : Storage) (k : String) : Option String :=
  (s.find? (fun e => e.1 == k)).map (fun e => e.2)

/-- The call `localStorage.removeItem(k)`. -/
def removeItem (s : Storage) (k : String) : Storage :=
  s.filter (fun e => !(e.1 == k))

/-- The call `localStorage.setItem(k, v)`. -/
def setItem (s : Storage) (k v : String) : Storage :=
  (k, v) :: removeItem s k

end Storage

/-- A file picked in the file input. -/
structure File where
  name : String

/-- The body of a request. -/
inductive Body where
  | empty
  | json (v : JsVal)
  | formData (fields : List (String × File))

/-- One call of `fetch`. -/
structure Request where
  url : String
  method : String
  headers : List (String × String)
  body : Body

/-- A response as the handlers read it: `status`, `statusText`, and the result of
`response.json()` (`none`: the body does not parse, the promise rejects). -/
structure Response where
  status : Nat
  statusText : String
  body : Option JsVal

/-- The property `response.ok`: a status in the range 200 to 299. -/
def Response.ok (r : Response) : Bool := 200 ≤ r.status && r.status ≤ 299

/-- How `await fetch(...)` ends: it throws (the transport fails, or the call itself
throws before a request is issued) or a response arrives. -/
inductive Outcome where
  | networkError
  | response (r : Response)

/-- One `console.error` call: its label and, where the second argument is a string,
that string. -/
structure ConsoleEntry where
  label : String
  detail : Option String

/-! ## API configuration -/

def API_BASE_URL : String := "https://silvia-munjal-three.vercel.app"

namespace API_ROUTES

def LOGIN : String := API_BASE_URL ++ "/auth/login"

def DOCUMENTS_LIST : String := API_BASE_URL ++ "/portal/documents"

def DOCUMENT_UPLOAD : String := API_BASE_URL ++ "/portal/documents/upload"

def QA_CHATBOT : String := API_BASE_URL ++ "/qa-chatbot"

end API_ROUTES

/-- The request that `fetchDocuments` issues; `bearer` is the prop `token` as the
template literal of the `Authorization` header writes it. -/
def listRequest (bearer : String) : Request :=
  { url := API_ROUTES.DOCUMENTS_LIST, method := "GET",
    headers := [("Authorization", "Bearer " ++ bearer)], body := .empty }

/-- The request that `handleUpload` issues for the file `f`; `bearer` is the prop
`token` as the template literal of the `Authorization` header writes it. -/
def uploadRequest (bearer : String) (f : File) : Request :=
  { url := API_ROUTES.DOCUMENT_UPLOAD, method := "POST",
    headers := [("Authorization", "Bearer " ++ bearer)],
    body := .formData [("file", f)] }

/-! ## Component state -/

/-- The state cells of `App`. -/
structure AppState where
  token : JsVal
  userId : JsVal
  loading : Bool

/-- The state cells of `LoginScreen`. -/
structure LoginState where
  email : String
  password : String
  loading : Bool
  error : JsVal

/-- The value of `page` in `PortalDashboard`; `setPage` is only called with the three
literals. -/
inductive Page where
  | list
  | upload
  | qa
  deriving DecidableEq

/-- The state cells of `PortalDashboard`. -/
structure DashState where
  documents : JsVal
  loadingDocs : Bool
  page : Page
  qaQuery : String
  qaAnswer : JsVal
  loadingQa : Bool
  qaError : JsVal

/-- The value of `file` in `DocumentUploader`: `null` at first, `e.target.files[0]`
afterwards, which is `undefined` when the picker holds no file. -/
inductive FileSel where
  | null
  | undefined
  | file (f : File)

/-- The condition `!file`. -/
def FileSel.falsy : FileSel → Bool
  | .file _ => false
  | _ => true

/-- The state cells of `DocumentUploader`. -/
structure UploaderState where
  file : FileSel
  loading : Bool
  message : JsVal

/-- The `useState` initial values of `App`. -/
def AppState.init : AppState :=
  { token := .null, userId := .null, loading := true }

/-- The `useState` initial values of `LoginScreen`. -/
def LoginState.init : LoginState :=
  { email := "client@test.com", password := "password", loading := false, error := .str "" }

/-- The `useState` initial values of `PortalDashboard`. -/
def DashState.init : DashState :=
  { documents := .arr [], loadingDocs := true, page := .list, qaQuery := "",
    qaAnswer := .null, loadingQa := false, qaError := .str "" }

/-- The `useState` initial values of `DocumentUploader`. -/
def UploaderState.init : UploaderState :=
  { file := .null, loading := false, message := .str "" }

/-- The whole client: the persistent store, the state cells of the components, the
dependency React remembers for the effect of `PortalDashboard` (`none` while the
dashboard is not mounted), the requests issued so far, the console, and whether React
has removed the tree after a component threw while rendering. -/
structure World where
  localStorage : Storage
  app : AppState
  login : LoginState
  dash : DashState
  uploader : UploaderState
  dashEffectToken : Option JsVal
  requests : List Request
  console : List ConsoleEntry
  crashed : Bool

/-- The client right after a page load over the persistent store `s`, before the
mount effect of `App` has run. -/
def World.pageLoad (s : Storage) : World :=
  { localStorage := s, app := AppState.init, login := LoginState.init,
    dash := DashState.init, uploader := UploaderState.init, dashEffectToken := none,
    requests := [], console := [], crashed := false }

/-- The call `console.error(label, x)`; `detail` is `x` when it is a string. -/
def consoleError (label : String) (detail : Option String) (w : World) : World :=
  { w with console := w.console ++ [ConsoleEntry.mk label detail] }

/-- The message object `{ text, type }` of `DocumentUploader`. -/
def mkMessage (text type : String) : JsVal :=
  .obj [("text", .str text), ("type", .str type)]

/-- How a `try` block ends: at its end, or at a statement that throws; either way with
the state reached so far. -/
inductive TryResult where
  | done (w : World)
  | thrown (w : World)

/-! ## PortalDashboard -/

namespace PortalDashboard

/-- The handler `handleLogout`. -/
def handleLogout (w : World) : World :=
  { w with
    app := { w.app with token := .null, userId := .null },
    localStorage := w.localStorage.removeItem "authToken" }

/-- The function `fetchDocuments` up to its `await fetch(...)`, in a closure that holds
the prop `token`: `setLoadingDocs(true)` and the request.  When the template literal of
the header throws no request is issued. -/
def fetchDocumentsStart (token : JsVal) (w : World) : World :=
  { w with
    dash := { w.dash with loadingDocs := true },
    requests :=
      match token.toStr with
      | some bearer => w.requests ++ [listRequest bearer]
      | none => w.requests }

/-- The `try` block of `fetchDocuments` from its `await fetch(...)` on. -/
def fetchDocumentsTry (w : World) : Outcome → TryResult
  | .networkError => .thrown w
  | .response r =>
    if r.ok then
      match r.body with
      | none => .thrown w
      | some data => .done { w with dash := { w.dash with documents := data } }
    else if r.status = 401 then
      .done (handleLogout w)
    else
      .done (consoleError "Failed to fetch documents:" (some r.statusText) w)

/-- The function `fetchDocuments` from the moment its `await fetch(...)` ends: `try`,
`catch`, `finally`. -/
def fetchDocumentsSettle (w : World) (o : Outcome) : World :=
  let w1 :=
    match fetchDocumentsTry w o with
    | .done w1 => w1
    | .thrown w1 => consoleError "Network error fetching documents:" none w1
  { w1 with dash := { w1.dash with loadingDocs := false } }

/-- The function `fetchDocuments`, called in the render that has the state `w`, with
the outcome of its `await fetch(...)`.  When the header cannot be built, no request is
issued and the `await fetch(...)` throws: its outcome is then `networkError`. -/
def fetchDocuments (w : World) (o : Outcome) : World :=
  fetchDocumentsSettle (fetchDocumentsStart w.app.token w) o

/-- A call `fetchDocuments()` whose request, if one is issued, settles later.  When the
template literal of the header throws, the call runs through `catch` and `finally` at
once. -/
def fetchDocumentsCall (token : JsVal) (w : World) : World :=
  match token.toStr with
  | some _ => fetchDocumentsStart token w
  | none => fetchDocumentsSettle (fetchDocumentsStart token w) .networkError

/-- The handler `handleQaQuery` up to its `await fetch(...)`. -/
def handleQaQueryStart (w : World) : World :=
  { w with
    dash := { w.dash with loadingQa := true, qaAnswer := .null, qaError := .str "" },
    requests := w.requests ++
      [{ url := API_ROUTES.QA_CHATBOT, method := "POST",
         headers := [("Content-Type", "application/json")],
         body := .json (.obj [("query", .str w.dash.qaQuery)]) }] }

/-- The `try` block of `handleQaQuery` from its `await fetch(...)` on. -/
def handleQaQueryTry (w : World) : Outcome → TryResult
  | .networkError => .thrown w
  | .response r =>
    match r.body with
    | none => .thrown w
    | some data =>
      if r.ok then
        match data.getField "answer" with
        | none => .thrown w
        | some answer => .done { w with dash := { w.dash with qaAnswer := answer } }
      else
        match data.getField "detail" with
        | none => .thrown w
        | some detail =>
          .done { w with dash := { w.dash with qaError := detail.or (.str "AI query failed.") } }

/-- The handler `handleQaQuery` from the moment its `await fetch(...)` ends. -/
def handleQaQuerySettle (w : World) (o : Outcome) : World :=
  let w1 :=
    match handleQaQueryTry w o with
    | .done w1 => w1
    | .thrown w1 => { w1 with dash := { w1.dash with
        qaError := .str "Network error during AI query. Check console." } }
  { w1 with dash := { w1.dash with loadingQa := false } }

/-- The handler `handleQaQuery` with the outcome of its request. -/
def handleQaQuery (w : World) (o : Outcome) : World :=
  handleQaQuerySettle (handleQaQueryStart w) o

/-- The attribute `disabled` of the submit button of the Q&A form. -/
def qaSubmitDisabled (w : World) : Bool :=
  w.dash.loadingQa || !(JsVal.str (jsTrim w.dash.qaQuery)).truthy

/-- A click on the submit button of the Q&A form, the only submit control of the form
whose `onSubmit` is `handleQaQuery`: a disabled button dispatches no event. -/
def submitQaForm (w : World) (o : Outcome) : World :=
  if qaSubmitDisabled w then w else handleQaQuery w o

/-- The `onChange` of the Q&A text area. -/
def setQaQuery (text : String) (w : World) : World :=
  { w with dash := { w.dash with qaQuery := text } }

/-- The `onClick` of the three navigation buttons. -/
def setPage (p : Page) (w : World) : World :=
  { w with dash := { w.dash with page := p } }

/-- The prop `onUploadSuccess` that `renderContent` hands to `DocumentUploader`, from the
render whose prop `token` is given: `setPage('list')` and `fetchDocuments()`. -/
def onUploadSuccess (token : JsVal) (w : World) : World :=
  fetchDocumentsCall token (setPage .list w)

/-- The effect of `PortalDashboard`, whose dependency list is `[token]`:
`if (token) fetchDocuments()`. -/
def tokenEffect (w : World) : World :=
  if w.app.token.truthy then fetchDocumentsCall w.app.token w else w

/-- The value of `doc.k` for a document that is not `null`. -/
def docField (doc : JsVal) (k : String) : JsVal :=
  (doc.getField k).getD .undefined

/-- Whether the element `<DocumentCard key={doc.id} doc={doc} />` throws while it is
made and rendered: on a `null` document; on the coercions of `doc.id` to the key, of
`doc.upload_date` by `new Date(...)` and of `doc.cloud_path` to the `href`; and on
`doc.filename`, `doc.status` and the summary as children. -/
def documentCardThrows (doc : JsVal) : Bool :=
  match doc with
  | .undefined => true
  | .null => true
  | _ =>
    (docField doc "id").toStr.isNone ||
    (docField doc "upload_date").toStr.isNone ||
    (docField doc "filename").childThrows ||
    (docField doc "status").childThrows ||
    ((docField doc "llm_summary").or (.str "Summary generation pending...")).childThrows ||
    (docField doc "cloud_path").toStr.isNone

/-- What the list branch of `renderContent` shows. -/
inductive ListView where
  | loading
  | cards (docs : List JsVal)
  | noDocuments

/-- What the list branch shows for an array when no card throws: the line for no
documents, or the cards in the order of the array. -/
def ListView.ofArray : List JsVal → ListView
  | [] => .noDocuments
  | x :: xs => .cards (x :: xs)

/-- The list branch of `renderContent`: the loading line, or, when
`documents.length > 0`, one card per element of `documents.map(...)`, in the order of
the array, or else the line for no documents.  `none` when it throws: `documents` is
`null`, or it is no array and has a `length` greater than zero (it has no callable
`map`), or the comparison or a card throws.  It has no branch that shows an error of
the refresh. -/
def listView (d : DashState) : Option ListView :=
  if d.loadingDocs then some .loading
  else
    match d.documents with
    | .undefined => none
    | .null => none
    | .bool _ => some .noDocuments
    | .num _ => some .noDocuments
    | .str s => if s = "" then some .noDocuments else none
    | .arr [] => some .noDocuments
    | .arr (x :: xs) =>
      if (x :: xs).any documentCardThrows then none else some (.cards (x :: xs))
    | .obj kvs =>
      match (JsVal.lookup "length" kvs).gtZero with
      | some false => some .noDocuments
      | _ => none

end PortalDashboard

/-! ## DocumentUploader -/

namespace DocumentUploader

/-- The handler `handleFileChange`, with the first file of the picker if it has one. -/
def handleFileChange (picked : Option File) (w : World) : World :=
  { w with uploader := { w.uploader with
      file := match picked with
        | some f => .file f
        | none => .undefined,
      message := .str "" } }

/-- The handler `handleUpload` up to its `await fetch(...)`, for the selected file `f`:
`setLoading(true)`, `setMessage('')` and the request.  When the template literal of
the header throws no request is issued. -/
def handleUploadStart (f : File) (w : World) : World :=
  { w with
    uploader := { w.uploader with loading := true, message := .str "" },
    requests :=
      match w.app.token.toStr with
      | some bearer => w.requests ++ [uploadRequest bearer f]
      | none => w.requests }

/-- The `try` block of `handleUpload` from its `await fetch(...)` on, in a closure that
holds the prop `token`.  The template literal of a message is evaluated, and can throw,
before `setMessage` is called. -/
def handleUploadTry (token : JsVal) (w : World) : Outcome → TryResult
  | .networkError => .thrown w
  | .response r =>
    match r.body with
    | none => .thrown w
    | some data =>
      if r.ok then
        match data.getField "filename" with
        | none => .thrown w
        | some filename =>
          match filename.toStr with
          | none => .thrown w
          | some name =>
            let w1 := { w with uploader := { w.uploader with
              message := mkMessage
                ("Success! File " ++ name ++ " uploaded and processing started.")
                "success",
              file := .null } }
            .done (PortalDashboard.onUploadSuccess token w1)
      else
        match data.getField "detail" with
        | none => .thrown w
        | some detail =>
          match (detail.or (.str r.statusText)).toStr with
          | none => .thrown w
          | some reason =>
            .done { w with uploader := { w.uploader with
              message := mkMessage ("Upload failed: " ++ reason) "error" } }

/-- The handler `handleUpload` from the moment its `await fetch(...)` ends. -/
def handleUploadSettle (token : JsVal) (w : World) (o : Outcome) : World :=
  let w1 :=
    match handleUploadTry token w o with
    | .done w1 => w1
    | .thrown w1 =>
      let w2 := consoleError "Upload error:" none w1
      { w2 with uploader := { w2.uploader with
          message := mkMessage "Network error during upload. Check console." "error" } }
  { w1 with uploader := { w1.uploader with loading := false } }

/-- The handler `handleUpload` up to its `return` without a file, or else up to its
`await fetch(...)`. -/
def handleUploadSubmit (w : World) : World :=
  match w.uploader.file with
  | .file f => handleUploadStart f w
  | _ => { w with uploader := { w.uploader with
      message := mkMessage "Please select a file first." "error" } }

/-- The handler `handleUpload` with the outcome of its `await fetch(...)`, if it gets
there.  When the header cannot be built, no request is issued and the
`await fetch(...)` throws: its outcome is then `networkError`. -/
def handleUpload (w : World) (o : Outcome) : World :=
  match w.uploader.file with
  | .file _ => handleUploadSettle w.app.token (handleUploadSubmit w) o
  | _ => handleUploadSubmit w

/-- Whether `DocumentUploader` throws while it renders: `message.type` on a message that
is `null`, or `message.text` as a child. -/
def renderThrows (u : UploaderState) : Bool :=
  (u.message.getField "type").isNone ||
  match u.message.getField "text" with
  | some text => text.childThrows
  | none => true

end DocumentUploader

/-! ## LoginScreen -/

namespace LoginScreen

/-- The handler `handleLogin` up to its `await fetch(...)`. -/
def handleLoginStart (w : World) : World :=
  { w with
    login := { w.login with loading := true, error := .str "" },
    requests := w.requests ++
      [{ url := API_ROUTES.LOGIN, method := "POST",
         headers := [("Content-Type", "application/json")],
         body := .json (.obj [("email", .str w.login.email),
                              ("password", .str w.login.password)]) }] }

/-- The `try` block of `handleLogin` from its `await fetch(...)` on, in a closure that
holds the state `email`.  `localStorage.setItem` coerces the token to a string after
`setToken` and `setUserId` have been called; when the coercion throws, both stay
set. -/
def handleLoginTry (email : String) (w : World) : Outcome → TryResult
  | .networkError => .thrown w
  | .response r =>
    match r.body with
    | none => .thrown w
    | some data =>
      if r.ok then
        match data.getField "access_token" with
        | none => .thrown w
        | some accessToken =>
          let w1 := { w with app := { w.app with token := accessToken, userId := .str email } }
          match accessToken.toStr with
          | none => .thrown w1
          | some stored =>
            .done { w1 with localStorage := w1.localStorage.setItem "authToken" stored }
      else
        match data.getField "detail" with
        | none => .thrown w
        | some detail =>
          .done { w with login := { w.login with
            error := detail.or (.str "Login failed. Check credentials.") } }

/-- The handler `handleLogin` from the moment its `await fetch(...)` ends. -/
def handleLoginSettle (email : String) (w : World) (o : Outcome) : World :=
  let w1 :=
    match handleLoginTry email w o with
    | .done w1 => w1
    | .thrown w1 =>
      consoleError "Login error:" none
        { w1 with login := { w1.login with
            error := .str "Network error. Check if the backend is running." } }
  { w1 with login := { w1.login with loading := false } }

/-- The handler `handleLogin` with the outcome of its request. -/
def handleLogin (w : World) (o : Outcome) : World :=
  handleLoginSettle w.login.email (handleLoginStart w) o

/-- The `onChange` of the email input. -/
def setEmail (email : String) (w : World) : World :=
  { w with login := { w.login with email := email } }

/-- The `onChange` of the password input. -/
def setPassword (password : String) (w : World) : World :=
  { w with login := { w.login with password := password } }

/-- Whether `LoginScreen` throws while it renders: `error` as a child. -/
def renderThrows (l : LoginState) : Bool :=
  l.error.childThrows

end LoginScreen

/-! ## App -/

namespace PortalDashboard

/-- Whether `renderContent` throws for the page that is selected. -/
def renderContentThrows (w : World) : Bool :=
  match w.dash.page with
  | .upload => DocumentUploader.renderThrows w.uploader
  | .qa => w.dash.qaError.childThrows || w.dash.qaAnswer.childThrows
  | .list => (listView w.dash).isNone

end PortalDashboard

namespace App

/-- The mount effect of `App`: the check for an existing token. -/
def mountEffect (w : World) : World :=
  let w1 :=
    match w.localStorage.getItem "authToken" with
    | some storedToken =>
      if (JsVal.str storedToken).truthy then
        { w with app := { w.app with token := .str storedToken, userId := .str "client@test.com" } }
      else w
    | none => w
  { w1 with app := { w1.app with loading := false } }

/-- What `App` returns. -/
inductive Screen where
  | loading
  | dashboard
  | login
  deriving DecidableEq

/-- The return value of `App`: the loading line, `PortalDashboard` or `LoginScreen`. -/
def screen (w : World) : Screen :=
  if w.app.loading then .loading
  else if w.app.token.truthy then .dashboard
  else .login

/-- The commit of a render in which no component throws.  A component that `App` (or
`renderContent`) does not return is unmounted, and its state cells hold their initial
values when it is mounted again: `LoginScreen` is mounted anew when the dashboard was
mounted before.  `PortalDashboard` runs its effect when it is mounted and when `token`
is not the value the effect last ran with. -/
def render (w : World) : World :=
  match screen w with
  | .loading =>
    { w with login := LoginState.init, dash := DashState.init,
             uploader := UploaderState.init, dashEffectToken := none }
  | .login =>
    { w with login := if w.dashEffectToken.isSome then LoginState.init else w.login,
             dash := DashState.init, uploader := UploaderState.init,
             dashEffectToken := none }
  | .dashboard =>
    match w.dashEffectToken with
    | none =>
      PortalDashboard.tokenEffect
        { w with login := LoginState.init, dash := DashState.init,
                 uploader := UploaderState.init, dashEffectToken := some w.app.token }
    | some last =>
      let w1 : World :=
        { w with login := LoginState.init,
                 uploader := if w.dash.page = .upload then w.uploader else UploaderState.init }
      if last.same w.app.token then w1
      else PortalDashboard.tokenEffect { w1 with dashEffectToken := some w.app.token }

/-- Whether a component throws while the tree that `App` returns is rendered, with
the state cells that `render` gives each component: the login screen (which cannot throw
on its initial cells), or the header of the dashboard (`User: {userId}`) with the
selected page (the list in its loading state when the dashboard is just mounted). -/
def renderThrows (w : World) : Bool :=
  match screen w with
  | .loading => false
  | .login => if w.dashEffectToken.isSome then false else LoginScreen.renderThrows w.login
  | .dashboard =>
    w.app.userId.childThrows ||
    match w.dashEffectToken with
    | none => false
    | some _ => PortalDashboard.renderContentThrows w

/-- The state after React has removed the tree: no component is mounted and no state
cell is left; the persistent store, the request log and the console stay. -/
def unmountAll (w : World) : World :=
  { w with app := AppState.init, login := LoginState.init, dash := DashState.init,
           uploader := UploaderState.init, dashEffectToken := none, crashed := true }

/-- The commit after an update.  There is no error boundary: when a component throws
while rendering, React removes the whole tree, and no later update brings it back. -/
def commit (w : World) : World :=
  if w.crashed || renderThrows w then unmountAll w else render w

/-- A reload of the page: a fresh in-memory state over the persistent store of `w`,
the mount effect of `App`, and the render that follows. -/
def reload (w : World) : World :=
  render (mountEffect (World.pageLoad w.localStorage))

end App

/-! ## Observations on a state -/

/-- Whether a request is a call of the list-documents endpoint. -/
def isListRequest (q : Request) : Bool :=
  q.url == API_ROUTES.DOCUMENTS_LIST && q.method == "GET"

/-- Whether a request is a call of the assistant endpoint. -/
def isQaRequest (q : Request) : Bool :=
  q.url == API_ROUTES.QA_CHATBOT

/-- The number of calls of the list-documents endpoint issued so far. -/
def countListRequests (w : World) : Nat :=
  (w.requests.filter isListRequest).length

/-- The number of calls of the assistant endpoint issued so far. -/
def countQaRequests (w : World) : Nat :=
  (w.requests.filter isQaRequest).length

/-- The state is one in which the dashboard is on screen: the tree is in place, `App`
returns `PortalDashboard`, which is mounted and has run its effect for the current
`token`, and the state has been rendered without a throw. -/
def dashboardShown (w : World) : Bool :=
  !w.crashed && decide (App.screen w = .dashboard) && !App.renderThrows w &&
  match w.dashEffectToken with
  | some last => last.same w.app.token
  | none => false

/-- The query text is empty or has only characters that `trim` removes. -/
def isBlank (text : String) : Bool :=
  text.data.all isJsWhiteSpace

/-! ## Runs of the client -/

/-- What can happen to the client after the page has loaded: a user event on one of its
controls, or the end of an `await fetch(...)` that a handler has started.  A handler may
run whether or not its control is enabled, and an `await fetch(...)` may end with any
outcome. -/
inductive Event where
  | typeEmail (email : String)
  | typePassword (password : String)
  | submitLogin
  | settleLogin (email : String) (o : Outcome)
  | clickSignOut
  | clickPage (p : Page)
  | typeQuery (text : String)
  | submitQuery
  | settleQuery (o : Outcome)
  | pickFile (picked : Option File)
  | submitUpload
  | settleUpload (token : JsVal) (o : Outcome)
  | settleDocuments (o : Outcome)

/-- The handler that an event runs. -/
def Event.handler : Event → World → World
  | .typeEmail email, w => LoginScreen.setEmail email w
  | .typePassword password, w => LoginScreen.setPassword password w
  | .submitLogin, w => LoginScreen.handleLoginStart w
  | .settleLogin email o, w => LoginScreen.handleLoginSettle email w o
  | .clickSignOut, w => PortalDashboard.handleLogout w
  | .clickPage p, w => PortalDashboard.setPage p w
  | .typeQuery text, w => PortalDashboard.setQaQuery text w
  | .submitQuery, w => PortalDashboard.handleQaQueryStart w
  | .settleQuery o, w => PortalDashboard.handleQaQuerySettle w o
  | .pickFile picked, w => DocumentUploader.handleFileChange picked w
  | .submitUpload, w => DocumentUploader.handleUploadSubmit w
  | .settleUpload token o, w => DocumentUploader.handleUploadSettle token w o
  | .settleDocuments o, w => PortalDashboard.fetchDocumentsSettle w o

/-- The states the client can be in: the state after a page load over some persistent
store, and the state after any event, and the commit that follows it, in such a
state. -/
inductive Reachable : World → Prop where
  | load (s : Storage) : Reachable (App.commit (App.mountEffect (World.pageLoad s)))
  | step (e : Event) (w : World) : Reachable w → Reachable (App.commit (e.handler w))

/-- The state after a sequence of events, each followed by its commit. -/
def World.after (w : World) (es : List Event) : World :=
  es.foldl (fun w e => App.commit (e.handler w)) w

/-- The uploader has no upload in flight whenever its `file` is `null`. -/
def uploaderIdle (u : UploaderState) : Prop :=
  u.file = .null → u.loading = false

/-! ## Sample runs -/

/-- A document as the list endpoint returns it. -/
def sampleDoc : JsVal :=
  .obj [("id", .num "1"), ("filename", .str "contract.pdf"),
        ("upload_date", .str "2024-05-01T10:00:00"), ("status", .str "New"),
        ("llm_summary", .null), ("cloud_path", .str "https://files.example/contract.pdf")]

/-- A successful login response with the token `abc`. -/
def loginOk : Response :=
  { status := 200, statusText := "OK", body := some (.obj [("access_token", .str "abc")]) }

/-- A successful login response whose token is the empty string. -/
def loginOkEmptyToken : Response :=
  { status := 200, statusText := "OK", body := some (.obj [("access_token", .str "")]) }

/-- A successful list response that carries the documents `docs`. -/
def listOk (docs : JsVal) : Response :=
  { status := 200, statusText := "OK", body := some docs }

/-- A successful upload response. -/
def uploadOk : Response :=
  { status := 200, statusText := "OK", body := some (.obj [("filename", .str "brief.pdf")]) }

/-- A successful upload response whose `filename` is an object with a property
`toString`, which no template literal can write. -/
def uploadOkOddName : Response :=
  { status := 200, statusText := "OK",
    body := some (.obj [("filename", .obj [("toString", .num "1")])]) }

/-- A successful assistant response. -/
def qaOk : Response :=
  { status := 200, statusText := "OK",
    body := some (.obj [("answer", .str "Arbitration is a private way to settle a dispute.")]) }

/-- A response with status 401 and a `detail` message. -/
def unauthorized : Response :=
  { status := 401, statusText := "Unauthorized",
    body := some (.obj [("detail", .str "Could not validate credentials")]) }

/-- A response with status 500 and a `detail` message. -/
def serverError : Response :=
  { status := 500, statusText := "Internal Server Error",
    body := some (.obj [("detail", .str "boom")]) }

/-- A response with status 200 whose body is not JSON. -/
def okNotJson : Response :=
  { status := 200, statusText := "OK", body := none }

/-- The page after a first load over an empty store: the login screen. -/
def firstLoad : World :=
  App.commit (App.mountEffect (World.pageLoad []))

/-- The login screen after a first page load, with the email `alice@example.com` typed. -/
def aliceAtLogin : World :=
  firstLoad.after [.typeEmail "alice@example.com"]

/-- The dashboard of a signed-in user whose document list holds `sampleDoc`: sign-in
with the token `abc`, and the first refresh answered with one document. -/
def signedIn : World :=
  aliceAtLogin.after
    [.submitLogin, .settleLogin "alice@example.com" (.response loginOk),
     .settleDocuments (.response (listOk (.arr [sampleDoc])))]

/-- The upload view of the signed-in user before any file is picked. -/
def atUploaderNoFile : World :=
  signedIn.after [.clickPage .upload]

/-- The uploader of the signed-in user with the file `brief.pdf` selected. -/
def atUploader : World :=
  atUploaderNoFile.after [.pickFile (some { name := "brief.pdf" })]

/-- The assistant view of the signed-in user with three spaces typed as the query. -/
def atAssistantBlank : World :=
  signedIn.after [.clickPage .qa, .typeQuery "   "]

/-- The assistant view of the signed-in user with a question typed, after an earlier
question was answered with `old answer`. -/
def atAssistantAnswered : World :=
  signedIn.after
    [.clickPage .qa, .typeQuery "What is a tort?", .submitQuery,
     .settleQuery (.response { status := 200, statusText := "OK",
                               body := some (.obj [("answer", .str "old answer")]) }),
     .typeQuery "What is arbitration?"]

/-- The assistant view that still shows `old answer`, after the user has replaced the
question by three spaces. -/
def atAssistantAnsweredBlank : World :=
  atAssistantAnswered.after [.typeQuery "   "]

end Portal

namespace Portal

/-! ## Lemmas on the persistent store and on JavaScript values -/

theorem Storage.getItem_setItem (s : Storage) (k v : String) :
    (s.setItem k v).getItem k = some v := by
  simp [Storage.setItem, Storage.getItem]

theorem Storage.getItem_removeItem (s : Storage) (k : String) :
    (s.removeItem k).getItem k = none := by
  simp [Storage.removeItem, Storage.getItem, List.find?_eq_none]

theorem Storage.removeItem_removeItem (s : Storage) (k : String) :
    (s.removeItem k).removeItem k = s.removeItem k := by
  simp [Storage.removeItem, List.filter_filter]

theorem JsVal.truthy_or (a b : JsVal) (hb : b.truthy = true) : (a.or b).truthy = true := by
  unfold JsVal.or
  split
  · assumption
  · exact hb

mutual
theorem JsVal.same_self : ∀ (a : JsVal), a.same a = true
  | .undefined => rfl
  | .null => rfl
  | .bool _ => by simp [JsVal.same]
  | .num _ => by simp [JsVal.same]
  | .str _ => by simp [JsVal.same]
  | .arr xs => by simpa [JsVal.same] using JsVal.sameList_self xs
  | .obj kvs => by simpa [JsVal.same] using JsVal.sameFields_self kvs
theorem JsVal.sameList_self : ∀ (xs : List JsVal), JsVal.sameList xs xs = true
  | [] => rfl
  | x :: xs => by simp [JsVal.sameList, JsVal.same_self x, JsVal.sameList_self xs]
theorem JsVal.sameFields_self : ∀ (kvs : List (String × JsVal)), JsVal.sameFields kvs kvs = true
  | [] => rfl
  | (_, x) :: kvs => by simp [JsVal.sameFields, JsVal.same_self x, JsVal.sameFields_self kvs]
end

theorem Response.not_ok_of_401 (r : Response) (h : r.status = 401) : r.ok = false := by
  simp [Response.ok, h]

theorem dropWhile_eq_nil_of_all (p : Char → Bool) (l : List Char) (h : l.all p = true) :
    l.dropWhile p = [] := by
  induction l with
  | nil => rfl
  | cons c cs ih =>
    simp only [List.all_cons, Bool.and_eq_true] at h
    simp [List.dropWhile, h.1, ih h.2]

theorem jsTrim_of_isBlank (text : String) (h : isBlank text = true) : jsTrim text = "" := by
  unfold jsTrim
  rw [dropWhile_eq_nil_of_all _ _ h]
  rfl

theorem mem_dropWhile_of_not (p : Char → Bool) (c : Char) (hc : p c = false) :
    ∀ l : List Char, c ∈ l → c ∈ l.dropWhile p
  | [], h => h
  | d :: ds, h => by
    cases hd : p d with
    | false => simpa [List.dropWhile, hd] using h
    | true =>
      have hne : c ≠ d := fun e => by rw [e, hd] at hc; exact Bool.noConfusion hc
      have hmem : c ∈ ds := by
        cases h with
        | head => exact absurd rfl hne
        | tail _ h' => exact h'
      simpa [List.dropWhile, hd] using mem_dropWhile_of_not p c hc ds hmem

theorem jsTrim_ne_empty_of_not_isBlank (text : String) (h : isBlank text = false) :
    jsTrim text ≠ "" := by
  unfold isBlank at h
  have h' : ¬ (text.data.all isJsWhiteSpace = true) := by simp [h]
  rw [List.all_eq_true] at h'
  push_neg at h'
  obtain ⟨c, hmem, hc⟩ := h'
  have hc' : isJsWhiteSpace c = false := by simpa using hc
  have h1 := mem_dropWhile_of_not _ c hc' _ hmem
  have h2 := mem_dropWhile_of_not _ c hc' _ (List.mem_reverse.mpr h1)
  have h3 : c ∈ (jsTrim text).data := by
    unfold jsTrim
    exact List.mem_reverse.mpr h2
  intro he
  rw [he] at h3
  exact absurd h3 (by simp)

/-! ## Lemmas on `render` and `commit` -/

open LoginScreen App PortalDashboard DocumentUploader

theorem PortalDashboard.fetchDocumentsCall_frame (token : JsVal) (w : World) :
    (fetchDocumentsCall token w).app = w.app ∧
    (fetchDocumentsCall token w).localStorage = w.localStorage ∧
    (fetchDocumentsCall token w).login = w.login ∧
    (fetchDocumentsCall token w).uploader = w.uploader ∧
    (fetchDocumentsCall token w).dashEffectToken = w.dashEffectToken ∧
    (fetchDocumentsCall token w).crashed = w.crashed := by
  unfold fetchDocumentsCall
  split <;>
  simp [fetchDocumentsStart, fetchDocumentsSettle, fetchDocumentsTry, consoleError]

theorem PortalDashboard.tokenEffect_frame (w : World) :
    (tokenEffect w).app = w.app ∧
    (tokenEffect w).localStorage = w.localStorage ∧
    (tokenEffect w).login = w.login ∧
    (tokenEffect w).uploader = w.uploader ∧
    (tokenEffect w).dashEffectToken = w.dashEffectToken ∧
    (tokenEffect w).crashed = w.crashed := by
  unfold tokenEffect
  split
  · exact fetchDocumentsCall_frame _ _
  · exact ⟨rfl, rfl, rfl, rfl, rfl, rfl⟩

theorem App.render_app (w : World) : (render w).app = w.app := by
  unfold render
  split
  · rfl
  · rfl
  · split
    · rw [(tokenEffect_frame _).1]
    · simp only
      split
      · rfl
      · rw [(tokenEffect_frame _).1]

theorem App.render_localStorage (w : World) : (render w).localStorage = w.localStorage := by
  unfold render
  split
  · rfl
  · rfl
  · split
    · rw [(tokenEffect_frame _).2.1]
    · simp only
      split
      · rfl
      · rw [(tokenEffect_frame _).2.1]

theorem App.render_crashed (w : World) : (render w).crashed = w.crashed := by
  unfold render
  split
  · rfl
  · rfl
  · split
    · rw [(tokenEffect_frame _).2.2.2.2.2]
    · simp only
      split
      · rfl
      · rw [(tokenEffect_frame _).2.2.2.2.2]

theorem App.screen_render (w : World) : screen (render w) = screen w := by
  simp only [screen, render_app]

theorem App.render_of_login (w : World) (h : screen w = .login) :
    render w = { w with login := if w.dashEffectToken.isSome then LoginState.init else w.login,
                        dash := DashState.init, uploader := UploaderState.init,
                        dashEffectToken := none } := by
  simp only [render, h]

theorem App.render_of_same_token (w : World) (last : JsVal) (hs : screen w = .dashboard)
    (hd : w.dashEffectToken = some last) (hsame : last.same w.app.token = true) :
    render w = { w with login := LoginState.init,
                        uploader := if w.dash.page = .upload then w.uploader
                                    else UploaderState.init } := by
  unfold render
  rw [hs]
  simp only [hd, hsame, if_true]

theorem App.screen_of_falsy_token (w : World) (hl : w.app.loading = false)
    (ht : w.app.token.truthy = false) : screen w = .login := by
  simp [screen, hl, ht]

theorem App.loading_of_dashboard (w : World) (h : screen w = .dashboard) :
    w.app.loading = false := by
  unfold screen at h
  cases hl : w.app.loading with
  | false => rfl
  | true => rw [hl] at h; simp at h

theorem App.commit_of_not_throwing (w : World) (hc : w.crashed = false)
    (ht : renderThrows w = false) : commit w = render w := by
  simp [commit, hc, ht]

theorem dashboardShown_iff (w : World) :
    dashboardShown w = true ↔
      w.crashed = false ∧ screen w = .dashboard ∧ renderThrows w = false ∧
      ∃ last, w.dashEffectToken = some last ∧ last.same w.app.token = true := by
  unfold dashboardShown
  cases hd : w.dashEffectToken with
  | none => simp
  | some last => simp [and_assoc]

/-! ## Lemmas on the handlers -/

theorem LoginScreen.handleLogin_ok (w : World) (r : Response) (data : JsVal) (t : String)
    (hok : r.ok = true) (hbody : r.body = some data)
    (htok : data.getField "access_token" = some (.str t)) :
    handleLogin w (.response r) =
      { w with
        app := { w.app with token := .str t, userId := .str w.login.email },
        localStorage := w.localStorage.setItem "authToken" t,
        login := { w.login with loading := false, error := .str "" },
        requests := w.requests ++
          [{ url := API_ROUTES.LOGIN, method := "POST",
             headers := [("Content-Type", "application/json")],
             body := .json (.obj [("email", .str w.login.email),
                                  ("password", .str w.login.password)]) }] } := by
  simp [handleLogin, handleLoginSettle, handleLoginTry, handleLoginStart, hok, hbody, htok,
    JsVal.toStr]

theorem App.mountEffect_pageLoad_app (s : Storage) (t : String)
    (h : s.getItem "authToken" = some t) (hne : t ≠ "") :
    (mountEffect (World.pageLoad s)).app =
      { token := .str t, userId := .str "client@test.com", loading := false } := by
  simp [mountEffect, World.pageLoad, h, AppState.init, JsVal.truthy, hne]

theorem PortalDashboard.fetchDocumentsSettle_401 (w : World) (r : Response)
    (hs : r.status = 401) :
    fetchDocumentsSettle w (.response r) =
      { w with
        app := { w.app with token := .null, userId := .null },
        localStorage := w.localStorage.removeItem "authToken",
        dash := { w.dash with loadingDocs := false } } := by
  simp [fetchDocumentsSettle, fetchDocumentsTry, Response.not_ok_of_401 r hs, hs, handleLogout]

theorem DocumentUploader.handleUpload_no_file (w : World) (o : Outcome)
    (hf : w.uploader.file.falsy = true) :
    handleUpload w o =
      { w with uploader := { w.uploader with
          message := mkMessage "Please select a file first." "error" } } := by
  unfold handleUpload handleUploadSubmit
  cases h : w.uploader.file with
  | file f => rw [h] at hf; simp [FileSel.falsy] at hf
  | null => rfl
  | undefined => rfl

/-! ## An invariant of the uploader -/

theorem App.render_uploader (w : World) :
    (render w).uploader = w.uploader ∨ (render w).uploader = UploaderState.init := by
  unfold render
  split
  · exact Or.inr rfl
  · exact Or.inr rfl
  · split
    · exact Or.inr (by rw [(tokenEffect_frame _).2.2.2.1])
    · by_cases hp : w.dash.page = .upload
      · left
        simp only [hp, if_true]
        split
        · rfl
        · rw [(tokenEffect_frame _).2.2.2.1]
      · right
        simp only [hp, if_false]
        split
        · rfl
        · rw [(tokenEffect_frame _).2.2.2.1]

theorem LoginScreen.handleLoginSettle_uploader (email : String) (w : World) (o : Outcome) :
    (handleLoginSettle email w o).uploader = w.uploader := by
  cases o with
  | networkError => rfl
  | response r =>
    cases hb : r.body with
    | none => simp [handleLoginSettle, handleLoginTry, hb, consoleError]
    | some data =>
      cases hok : r.ok with
      | true =>
        cases ha : data.getField "access_token" with
        | none => simp [handleLoginSettle, handleLoginTry, hb, hok, ha, consoleError]
        | some accessToken =>
          cases hc : accessToken.toStr <;>
          simp [handleLoginSettle, handleLoginTry, hb, hok, ha, hc, consoleError]
      | false =>
        cases hd : data.getField "detail" <;>
        simp [handleLoginSettle, handleLoginTry, hb, hok, hd, consoleError]

theorem PortalDashboard.handleQaQuerySettle_uploader (w : World) (o : Outcome) :
    (handleQaQuerySettle w o).uploader = w.uploader := by
  cases o with
  | networkError => rfl
  | response r =>
    cases hb : r.body with
    | none => simp [handleQaQuerySettle, handleQaQueryTry, hb]
    | some data =>
      cases hok : r.ok with
      | true =>
        cases ha : data.getField "answer" <;>
        simp [handleQaQuerySettle, handleQaQueryTry, hb, hok, ha]
      | false =>
        cases hd : data.getField "detail" <;>
        simp [handleQaQuerySettle, handleQaQueryTry, hb, hok, hd]

theorem PortalDashboard.fetchDocumentsSettle_uploader (w : World) (o : Outcome) :
    (fetchDocumentsSettle w o).uploader = w.uploader := by
  cases o with
  | networkError => rfl
  | response r =>
    cases hok : r.ok with
    | true =>
      cases hb : r.body <;>
      simp [fetchDocumentsSettle, fetchDocumentsTry, hb, hok, consoleError]
    | false =>
      by_cases hs : r.status = 401 <;>
      simp [fetchDocumentsSettle, fetchDocumentsTry, hok, hs, consoleError, handleLogout]

theorem Event.handler_uploaderIdle (e : Event) (w : World) (h : uploaderIdle w.uploader) :
    uploaderIdle (e.handler w).uploader := by
  cases e with
  | typeEmail _ => exact h
  | typePassword _ => exact h
  | submitLogin => exact h
  | settleLogin email o =>
    simp only [Event.handler, handleLoginSettle_uploader]; exact h
  | clickSignOut => exact h
  | clickPage _ => exact h
  | typeQuery _ => exact h
  | submitQuery => exact h
  | settleQuery o =>
    simp only [Event.handler, handleQaQuerySettle_uploader]; exact h
  | pickFile picked =>
    intro hf
    cases picked <;> simp [Event.handler, handleFileChange] at hf
  | submitUpload =>
    simp only [Event.handler, handleUploadSubmit]
    split
    · rename_i f hf
      intro hf'
      simp [handleUploadStart, hf] at hf'
    · exact h
  | settleUpload token o =>
    intro _
    simp [Event.handler, handleUploadSettle]
  | settleDocuments o =>
    simp only [Event.handler, fetchDocumentsSettle_uploader]; exact h

theorem App.commit_uploaderIdle (w : World) (h : uploaderIdle w.uploader) :
    uploaderIdle (commit w).uploader := by
  unfold commit
  split
  · intro _; rfl
  · rcases render_uploader w with h1 | h1
    · rw [h1]; exact h
    · rw [h1]; intro _; rfl

theorem Reachable.uploader_idle (w : World) (h : Reachable w) : uploaderIdle w.uploader := by
  induction h with
  | load s =>
    apply commit_uploaderIdle
    intro _
    simp only [mountEffect]
    split
    · split <;> rfl
    · rfl
  | step e w _ ih => exact commit_uploaderIdle _ (Event.handler_uploaderIdle e w ih)

theorem Reachable.after_events (w : World) (es : List Event) (h : Reachable w) :
    Reachable (w.after es) := by
  induction es generalizing w with
  | nil => exact h
  | cons e es ih => exact ih _ (Reachable.step e w h)

theorem reachable_signedIn : Reachable signedIn :=
  Reachable.after_events _ _ (Reachable.after_events _ _ (Reachable.load []))

/-! ## Lemmas on the refresh and the upload -/

theorem App.commit_crashed_or_rendered (w : World) :
    (commit w).crashed = true ∨
      (w.crashed = false ∧ renderThrows w = false ∧ commit w = render w) := by
  unfold commit
  split
  · exact Or.inl rfl
  · rename_i h
    simp only [Bool.or_eq_true, not_or, Bool.not_eq_true] at h
    exact Or.inr ⟨h.1, h.2, rfl⟩

theorem isListRequest_listRequest (bearer : String) :
    isListRequest (listRequest bearer) = true :=
  rfl

theorem isListRequest_uploadRequest (bearer : String) (f : File) :
    isListRequest (uploadRequest bearer f) = false :=
  rfl

theorem App.userId_renders_of_dashboardShown (w : World) (h : dashboardShown w = true) :
    w.app.userId.childThrows = false := by
  obtain ⟨_, hs, ht, _⟩ := (dashboardShown_iff w).mp h
  unfold App.renderThrows at ht
  rw [hs] at ht
  simp only [Bool.or_eq_false_iff] at ht
  exact ht.1

theorem DocumentUploader.handleUpload_ok (w : World) (f : File) (r : Response)
    (data filename : JsVal) (name bearer : String) (hf : w.uploader.file = .file f)
    (hok : r.ok = true) (hbody : r.body = some data)
    (hname : data.getField "filename" = some filename) (hstr : filename.toStr = some name)
    (htok : w.app.token.toStr = some bearer) :
    handleUpload w (.response r) =
      { w with
        uploader := { file := .null, loading := false,
                      message := mkMessage ("Success! File " ++ name ++
                        " uploaded and processing started.") "success" },
        dash := { w.dash with page := .list, loadingDocs := true },
        requests := w.requests ++ [uploadRequest bearer f, listRequest bearer] } := by
  simp [handleUpload, handleUploadSubmit, hf, handleUploadSettle, handleUploadTry,
    handleUploadStart, hok, hbody, hname, hstr, htok, onUploadSuccess, fetchDocumentsCall,
    fetchDocumentsStart, setPage]

theorem PortalDashboard.fetchDocuments_response_ok (w : World) (r : Response) (data : JsVal)
    (hok : r.ok = true) (hbody : r.body = some data) :
    fetchDocuments w (.response r) =
      { w with
        dash := { w.dash with documents := data, loadingDocs := false },
        requests := (fetchDocumentsStart w.app.token w).requests } := by
  simp [fetchDocuments, fetchDocumentsSettle, fetchDocumentsTry, fetchDocumentsStart, hok,
    hbody]

theorem PortalDashboard.fetchDocuments_failure (w : World) (o : Outcome)
    (h : o = .networkError ∨
      ∃ r, o = .response r ∧ ((r.ok = false ∧ r.status ≠ 401) ∨ (r.ok = true ∧ r.body = none))) :
    ∃ entry : ConsoleEntry, fetchDocuments w o =
      { w with
        dash := { w.dash with loadingDocs := false },
        requests := (fetchDocumentsStart w.app.token w).requests,
        console := w.console ++ [entry] } := by
  rcases h with h | ⟨r, h, ⟨hok, hs⟩ | ⟨hok, hbody⟩⟩
  · subst h
    exact ⟨ConsoleEntry.mk "Network error fetching documents:" none,
      by simp [fetchDocuments, fetchDocumentsSettle, fetchDocumentsTry,
        fetchDocumentsStart, consoleError]⟩
  · subst h
    exact ⟨ConsoleEntry.mk "Failed to fetch documents:" (some r.statusText),
      by simp [fetchDocuments, fetchDocumentsSettle, fetchDocumentsTry,
        fetchDocumentsStart, consoleError, hok, hs]⟩
  · subst h
    exact ⟨ConsoleEntry.mk "Network error fetching documents:" none,
      by simp [fetchDocuments, fetchDocumentsSettle, fetchDocumentsTry,
        fetchDocumentsStart, consoleError, hok, hbody]⟩

theorem PortalDashboard.listView_of_array (d : DashState) (L : List JsVal)
    (hl : d.loadingDocs = false) (hd : d.documents = .arr L) :
    listView d = none ∨ listView d = some (ListView.ofArray L) := by
  unfold listView
  rw [hl, hd]
  cases L with
  | nil => exact Or.inr rfl
  | cons x xs =>
    simp only [Bool.false_eq_true, if_false]
    split
    · exact Or.inl rfl
    · exact Or.inr rfl

/-- The commit after a handler that leaves the session and the effect dependency of a
shown dashboard as they were: unless a component throws, the dashboard keeps the state
cells the handler left. -/
theorem App.commit_of_dashboard_kept (w w1 : World) (hshown : dashboardShown w = true)
    (happ : w1.app = w.app) (hdep : w1.dashEffectToken = w.dashEffectToken) :
    (commit w1).crashed = true ∨
      (renderThrows w1 = false ∧ (commit w1).crashed = false ∧
        (commit w1).dash = w1.dash ∧ (commit w1).requests = w1.requests) := by
  obtain ⟨hc, hs, _, last, hd, hsame⟩ := (dashboardShown_iff w).mp hshown
  rcases commit_crashed_or_rendered w1 with h | ⟨h1, h2, h3⟩
  · exact Or.inl h
  · right
    have hs1 : screen w1 = .dashboard := by simp only [screen, happ] at hs ⊢; exact hs
    have hr := render_of_same_token w1 last hs1 (by rw [hdep, hd]) (by rw [happ]; exact hsame)
    refine ⟨h2, ?_, ?_, ?_⟩
    · rw [h3, render_crashed, h1]
    · rw [h3, hr]
    · rw [h3, hr]

theorem App.renderContent_of_not_throwing (w : World) (last : JsVal)
    (hs : screen w = .dashboard) (hd : w.dashEffectToken = some last)
    (ht : renderThrows w = false) : renderContentThrows w = false := by
  unfold App.renderThrows at ht
  rw [hs] at ht
  simp only [hd, Bool.or_eq_false_iff] at ht
  exact ht.2

/-! ## C1: sign-in followed by reload -/

/-- C1, as stated, fails.  Alice signs in with `alice@example.com` and receives the token
`abc`: the Credential is (`abc`, `alice@example.com`).  After a reload the token is
`abc` again but the user identity is `client@test.com`, not the email that signed in.
And a sign-in that receives the empty string as token is not restored at all: after the
reload the token is `null`. -/
theorem signIn_reload_identity_counterexample :
    (loginOk.ok = true ∧
      (handleLogin aliceAtLogin (.response loginOk)).app.token = .str "abc" ∧
      (handleLogin aliceAtLogin (.response loginOk)).app.userId = .str "alice@example.com" ∧
      (reload (handleLogin aliceAtLogin (.response loginOk))).app.token = .str "abc" ∧
      (reload (handleLogin aliceAtLogin (.response loginOk))).app.userId
        = .str "client@test.com" ∧
      (reload (handleLogin aliceAtLogin (.response loginOk))).app.userId
        ≠ (handleLogin aliceAtLogin (.response loginOk)).app.userId) ∧
    (loginOkEmptyToken.ok = true ∧
      (handleLogin aliceAtLogin (.response loginOkEmptyToken)).app.token = .str "" ∧
      (reload (handleLogin aliceAtLogin (.response loginOkEmptyToken))).app.token = .null ∧
      (reload (handleLogin aliceAtLogin (.response loginOkEmptyToken))).app.userId = .null) := by
  refine ⟨⟨rfl, rfl, rfl, rfl, rfl, ?_⟩, rfl, rfl, rfl, rfl⟩
  have h1 : (reload (handleLogin aliceAtLogin (.response loginOk))).app.userId
      = .str "client@test.com" := rfl
  have h2 : (handleLogin aliceAtLogin (.response loginOk)).app.userId
      = .str "alice@example.com" := rfl
  rw [h1, h2]
  simp

/-- C1, amended.  For every state of the login screen (every email and password) and
every 2xx login response whose body carries a non-empty string `t` as `access_token`,
`handleLogin` sets the token to `t`, the user identity to the email and the store key
`authToken` to `t`; the mount effect of `App` on a fresh in-memory state over that store
restores the token `t` and sets the user identity to the placeholder `client@test.com`.
The restored identity is the one that signed in exactly when that email is
`client@test.com`. -/
theorem signIn_reload_restores_token_with_placeholder_identity
    (w : World) (r : Response) (data : JsVal) (t : String)
    (hok : r.ok = true) (hbody : r.body = some data)
    (htok : data.getField "access_token" = some (.str t)) (hne : t ≠ "") :
    (handleLogin w (.response r)).app.token = .str t ∧
    (handleLogin w (.response r)).app.userId = .str w.login.email ∧
    (handleLogin w (.response r)).localStorage.getItem "authToken" = some t ∧
    (reload (handleLogin w (.response r))).app.token = .str t ∧
    (reload (handleLogin w (.response r))).app.userId = .str "client@test.com" ∧
    ((reload (handleLogin w (.response r))).app.userId
        = (handleLogin w (.response r)).app.userId
      ↔ w.login.email = "client@test.com") := by
  have h1 := handleLogin_ok w r data t hok hbody htok
  have hs : (handleLogin w (.response r)).localStorage.getItem "authToken" = some t := by
    rw [h1]; exact Storage.getItem_setItem _ _ _
  have h2 := mountEffect_pageLoad_app _ t hs hne
  refine ⟨by rw [h1], by rw [h1], hs, ?_, ?_, ?_⟩
  · rw [reload, render_app, h2]
  · rw [reload, render_app, h2]
  · rw [reload, render_app, h2, h1]
    simp only [JsVal.str.injEq]
    exact eq_comm

/-- The amended C1 at Alice's sign-in with the token `abc`. -/
theorem signIn_reload_restores_token_with_placeholder_identity_witness :
    (loginOk.ok = true ∧ "abc" ≠ "") ∧
    (handleLogin aliceAtLogin (.response loginOk)).app.token = .str "abc" ∧
    (handleLogin aliceAtLogin (.response loginOk)).app.userId
      = .str aliceAtLogin.login.email ∧
    (handleLogin aliceAtLogin (.response loginOk)).localStorage.getItem "authToken"
      = some "abc" ∧
    (reload (handleLogin aliceAtLogin (.response loginOk))).app.token = .str "abc" ∧
    (reload (handleLogin aliceAtLogin (.response loginOk))).app.userId
      = .str "client@test.com" ∧
    ((reload (handleLogin aliceAtLogin (.response loginOk))).app.userId
        = (handleLogin aliceAtLogin (.response loginOk)).app.userId
      ↔ aliceAtLogin.login.email = "client@test.com") :=
  ⟨⟨rfl, by decide⟩,
   signIn_reload_restores_token_with_placeholder_identity aliceAtLogin loginOk
     (.obj [("access_token", .str "abc")]) "abc" rfl rfl rfl (by decide)⟩

/-! ## C2: a 401 on the document refresh signs the user out -/

/-- C2.  For every state in which the dashboard is shown, whatever its document list,
when `fetchDocuments` receives a response with status 401 (which is not 2xx) the state
after the render that follows is signed out: the token and the user identity are `null`,
the store has no `authToken` key, `App` returns the login screen, and the dashboard is
unmounted, so that its state cells, the document list included, are back at their
initial values (`documents = []`). -/
theorem fetchDocuments_unauthorized_signs_out (w : World) (r : Response)
    (hs : r.status = 401) (hd : screen w = .dashboard) :
    r.ok = false ∧
    (render (fetchDocuments w (.response r))).app.token = .null ∧
    (render (fetchDocuments w (.response r))).app.userId = .null ∧
    (render (fetchDocuments w (.response r))).localStorage.getItem "authToken" = none ∧
    screen (render (fetchDocuments w (.response r))) = .login ∧
    (render (fetchDocuments w (.response r))).dashEffectToken = none ∧
    (render (fetchDocuments w (.response r))).dash = DashState.init ∧
    (render (fetchDocuments w (.response r))).dash.documents = .arr [] := by
  have hl := loading_of_dashboard w hd
  have h1 : fetchDocuments w (.response r) = _ :=
    fetchDocumentsSettle_401 (fetchDocumentsStart w.app.token w) r hs
  have hscr : screen (fetchDocuments w (.response r)) = .login := by
    rw [h1]
    exact screen_of_falsy_token _ hl rfl
  have h2 := render_of_login _ hscr
  refine ⟨Response.not_ok_of_401 r hs, ?_, ?_, ?_, ?_, ?_, ?_, ?_⟩
  · rw [render_app, h1]
  · rw [render_app, h1]
  · rw [render_localStorage, h1]
    exact Storage.getItem_removeItem _ _
  · rw [screen_render, hscr]
  · rw [h2]
  · rw [h2]
  · rw [h2]; rfl

/-- C2 at the signed-in dashboard, whose document list holds one document. -/
theorem fetchDocuments_unauthorized_signs_out_witness :
    (unauthorized.status = 401 ∧ screen signedIn = .dashboard ∧
      signedIn.dash.documents = .arr [sampleDoc] ∧
      signedIn.localStorage.getItem "authToken" = some "abc") ∧
    (unauthorized.ok = false ∧
    (render (fetchDocuments signedIn (.response unauthorized))).app.token = .null ∧
    (render (fetchDocuments signedIn (.response unauthorized))).app.userId = .null ∧
    (render (fetchDocuments signedIn (.response unauthorized))).localStorage.getItem
      "authToken" = none ∧
    screen (render (fetchDocuments signedIn (.response unauthorized))) = .login ∧
    (render (fetchDocuments signedIn (.response unauthorized))).dashEffectToken = none ∧
    (render (fetchDocuments signedIn (.response unauthorized))).dash = DashState.init ∧
    (render (fetchDocuments signedIn (.response unauthorized))).dash.documents = .arr []) :=
  ⟨⟨rfl, rfl, rfl, rfl⟩,
   fetchDocuments_unauthorized_signs_out signedIn unauthorized rfl rfl⟩

/-! ## C3: a 401 on the upload -/

/-- C3 fails on `handleUpload`.  At the uploader of the signed-in user, with a file
selected, an upload answered with status 401 leaves the token `abc` in memory and under
the store key `authToken`, the dashboard stays on screen, and the uploader shows
`Upload failed: Could not validate credentials`. -/
theorem handleUpload_unauthorized_keeps_session :
    unauthorized.status = 401 ∧
    atUploader.app.token = .str "abc" ∧
    atUploader.localStorage.getItem "authToken" = some "abc" ∧
    (render (handleUpload atUploader (.response unauthorized))).app.token = .str "abc" ∧
    (render (handleUpload atUploader (.response unauthorized))).localStorage.getItem
      "authToken" = some "abc" ∧
    screen (render (handleUpload atUploader (.response unauthorized))) = .dashboard ∧
    (render (handleUpload atUploader (.response unauthorized))).uploader.message
      = mkMessage "Upload failed: Could not validate credentials" "error" :=
  ⟨rfl, rfl, rfl, rfl, rfl, rfl, rfl⟩

/-! ## C4: sign-out -/

/-- C4.  From every state, `handleLogout` sets the token and the user identity to `null`
and leaves the store without the `authToken` key; it issues no request (the request log
is unchanged); and it is idempotent, both as a handler and together with the render that
follows it. -/
theorem handleLogout_clears_session_idempotent (w : World) :
    (handleLogout w).app.token = .null ∧
    (handleLogout w).app.userId = .null ∧
    (handleLogout w).localStorage.getItem "authToken" = none ∧
    (handleLogout w).requests = w.requests ∧
    (render (handleLogout w)).requests = w.requests ∧
    handleLogout (handleLogout w) = handleLogout w ∧
    render (handleLogout (render (handleLogout w))) = render (handleLogout w) := by
  refine ⟨rfl, rfl, Storage.getItem_removeItem _ _, rfl, ?_, ?_, ?_⟩
  · simp only [render, screen, handleLogout, JsVal.truthy]
    cases w.app.loading <;> rfl
  · simp only [handleLogout, Storage.removeItem_removeItem]
  · simp only [render, screen, handleLogout, JsVal.truthy]
    cases w.app.loading <;> simp [Storage.removeItem_removeItem]

/-! ## C5: a successful upload refreshes the list once -/

/-- C5, as stated, fails.  At the uploader of the signed-in user, with `brief.pdf`
selected, an upload answered with status 200 and a body that is not JSON issues no
request to the list-documents endpoint and leaves the page on `upload`; the uploader
shows the network-error message.  The same happens for a status 200 whose `filename`
is an object with a property `toString`: the template literal of the success message
throws before `onUploadSuccess` is reached. -/
theorem handleUpload_ok_unparsed_body_counterexample :
    (okNotJson.ok = true ∧
      atUploader.uploader.file.falsy = false ∧
      countListRequests (commit (handleUpload atUploader (.response okNotJson)))
        = countListRequests atUploader ∧
      countListRequests (commit (handleUpload atUploader (.response okNotJson)))
        ≠ countListRequests atUploader + 1 ∧
      (commit (handleUpload atUploader (.response okNotJson))).requests
        = atUploader.requests ++ [uploadRequest "abc" { name := "brief.pdf" }] ∧
      (commit (handleUpload atUploader (.response okNotJson))).dash.page = .upload ∧
      (commit (handleUpload atUploader (.response okNotJson))).dash.page ≠ .list ∧
      (commit (handleUpload atUploader (.response okNotJson))).uploader.message
        = mkMessage "Network error during upload. Check console." "error") ∧
    (uploadOkOddName.ok = true ∧
      countListRequests (commit (handleUpload atUploader (.response uploadOkOddName)))
        = countListRequests atUploader ∧
      countListRequests (commit (handleUpload atUploader (.response uploadOkOddName)))
        ≠ countListRequests atUploader + 1 ∧
      (commit (handleUpload atUploader (.response uploadOkOddName))).dash.page = .upload ∧
      (commit (handleUpload atUploader (.response uploadOkOddName))).dash.page ≠ .list ∧
      (commit (handleUpload atUploader (.response uploadOkOddName))).uploader.message
        = mkMessage "Network error during upload. Check console." "error") :=
  ⟨⟨rfl, rfl, rfl, by decide, rfl, rfl, by decide, rfl⟩,
   ⟨rfl, rfl, by decide, rfl, by decide, rfl⟩⟩

/-- C5, amended.  For every state with a selected file `f` whose upload request is
issued (the token can be written into the `Authorization` header) and answered with a
2xx response whose body parses to a value other than `null` and whose `filename` can be
written into the success message, `handleUpload` issues the upload request and then
exactly one request to the list-documents endpoint, and sets the page to `list`.  When
the dashboard is on screen, the commit that follows throws nothing, issues no further
request and keeps the page on `list`. -/
theorem handleUpload_ok_parsed_refreshes_once (w : World) (f : File) (r : Response)
    (data filename : JsVal) (name bearer : String) (hf : w.uploader.file = .file f)
    (hok : r.ok = true) (hbody : r.body = some data)
    (hname : data.getField "filename" = some filename) (hstr : filename.toStr = some name)
    (htok : w.app.token.toStr = some bearer) :
    (handleUpload w (.response r)).requests
      = w.requests ++ [uploadRequest bearer f, listRequest bearer] ∧
    countListRequests (handleUpload w (.response r)) = countListRequests w + 1 ∧
    (handleUpload w (.response r)).dash.page = .list ∧
    (dashboardShown w = true →
      (commit (handleUpload w (.response r))).crashed = false ∧
      (commit (handleUpload w (.response r))).requests
        = w.requests ++ [uploadRequest bearer f, listRequest bearer] ∧
      countListRequests (commit (handleUpload w (.response r))) = countListRequests w + 1 ∧
      (commit (handleUpload w (.response r))).dash.page = .list) := by
  have h1 := handleUpload_ok w f r data filename name bearer hf hok hbody hname hstr htok
  have hc : countListRequests (handleUpload w (.response r)) = countListRequests w + 1 := by
    rw [h1]
    simp [countListRequests, List.filter_append, List.filter_cons,
      isListRequest_listRequest, isListRequest_uploadRequest]
  refine ⟨by rw [h1], hc, by rw [h1], ?_⟩
  intro hshown
  obtain ⟨hcr, hs, _, last, hd, hsame⟩ := (dashboardShown_iff w).mp hshown
  have huser := userId_renders_of_dashboardShown w hshown
  have hs1 : screen (handleUpload w (.response r)) = .dashboard := by
    rw [h1]; exact hs
  have hd1 : (handleUpload w (.response r)).dashEffectToken = some last := by
    rw [h1]; exact hd
  have hthrow : renderThrows (handleUpload w (.response r)) = false := by
    unfold App.renderThrows
    rw [hs1]
    simp only [hd1]
    rw [h1]
    simp [huser, renderContentThrows, listView]
  have hcr1 : (handleUpload w (.response r)).crashed = false := by rw [h1]; exact hcr
  have h2 := commit_of_not_throwing _ hcr1 hthrow
  have h3 := render_of_same_token _ last hs1 hd1 (by rw [h1]; exact hsame)
  have hreq : (commit (handleUpload w (.response r))).requests
      = (handleUpload w (.response r)).requests := by rw [h2, h3]
  refine ⟨by rw [h2, render_crashed, hcr1], by rw [hreq, h1], ?_, by rw [h2, h3, h1]⟩
  rw [← hc]
  simp only [countListRequests, hreq]

/-- The amended C5 at the uploader of the signed-in user with `brief.pdf` selected. -/
theorem handleUpload_ok_parsed_refreshes_once_witness :
    (atUploader.uploader.file.falsy = false ∧ uploadOk.ok = true ∧
      atUploader.app.token.toStr = some "abc" ∧ dashboardShown atUploader = true) ∧
    (commit (handleUpload atUploader (.response uploadOk))).crashed = false ∧
    (commit (handleUpload atUploader (.response uploadOk))).requests
      = atUploader.requests ++ [uploadRequest "abc" { name := "brief.pdf" },
          listRequest "abc"] ∧
    countListRequests (commit (handleUpload atUploader (.response uploadOk)))
      = countListRequests atUploader + 1 ∧
    (commit (handleUpload atUploader (.response uploadOk))).dash.page = .list :=
  ⟨⟨rfl, rfl, rfl, rfl⟩,
   (handleUpload_ok_parsed_refreshes_once atUploader { name := "brief.pdf" } uploadOk
      (.obj [("filename", .str "brief.pdf")]) (.str "brief.pdf") "brief.pdf" "abc"
      rfl rfl rfl rfl rfl rfl).2.2.2 rfl⟩

/-! ## C6: upload without a file -/

/-- C6.  For every state whose `file` is `null` (or `undefined`) and whatever the network
would answer, `handleUpload` sets the message to the error
`Please select a file first.` and does nothing else: the request log is unchanged (zero
requests), the dashboard state is unchanged (no `onUploadSuccess`, which would set the
page and start a refresh), the session is unchanged, and the loading flag is not
touched.  So the flag is false after the call whenever it was false before, and it is
false after the call in every state with `file = null` that the client can reach. -/
theorem handleUpload_without_file_is_local_error (w : World) (o : Outcome)
    (hf : w.uploader.file.falsy = true) :
    (handleUpload w o).uploader.message = mkMessage "Please select a file first." "error" ∧
    (handleUpload w o).requests = w.requests ∧
    (handleUpload w o).dash = w.dash ∧
    (handleUpload w o).app = w.app ∧
    (handleUpload w o).localStorage = w.localStorage ∧
    (handleUpload w o).uploader.loading = w.uploader.loading ∧
    (w.uploader.loading = false → (handleUpload w o).uploader.loading = false) ∧
    (Reachable w → w.uploader.file = .null →
      (handleUpload w o).uploader.loading = false) := by
  rw [handleUpload_no_file w o hf]
  exact ⟨rfl, rfl, rfl, rfl, rfl, rfl, fun h => h,
    fun hr hnull => Reachable.uploader_idle w hr hnull⟩

/-- C6 at the upload view before any file is picked, a state the client reaches, with a
network that would answer 200. -/
theorem handleUpload_without_file_is_local_error_witness :
    (atUploaderNoFile.uploader.file.falsy = true ∧
      atUploaderNoFile.uploader.loading = false ∧ Reachable atUploaderNoFile) ∧
    (handleUpload atUploaderNoFile (.response uploadOk)).uploader.message
      = mkMessage "Please select a file first." "error" ∧
    (handleUpload atUploaderNoFile (.response uploadOk)).requests
      = atUploaderNoFile.requests ∧
    (handleUpload atUploaderNoFile (.response uploadOk)).dash = atUploaderNoFile.dash ∧
    (handleUpload atUploaderNoFile (.response uploadOk)).uploader.loading = false :=
  have h := handleUpload_without_file_is_local_error atUploaderNoFile (.response uploadOk) rfl
  ⟨⟨rfl, rfl, Reachable.after_events _ _ reachable_signedIn⟩, h.1, h.2.1, h.2.2.1,
   h.2.2.2.2.2.2.2 (Reachable.after_events _ _ reachable_signedIn) rfl⟩

/-! ## C7: the document list after a refresh -/

/-- C7, as stated, fails.  At the signed-in dashboard, whose list holds `sampleDoc`, a
refresh answered with status 401 (a non-2xx response) does not leave `documents = D`:
the handler signs the user out, the commit shows the login screen and the dashboard is
unmounted, its document list back at `[]`.  And a 2xx response whose body is `null`
leaves `documents = null`, which is neither a list of the server nor the old list; the
list view then throws on `documents.length` and React removes the tree. -/
theorem fetchDocuments_unauthorized_discards_list_counterexample :
    (signedIn.dash.documents = .arr [sampleDoc] ∧
      unauthorized.ok = false ∧
      (commit (fetchDocuments signedIn (.response unauthorized))).crashed = false ∧
      screen (commit (fetchDocuments signedIn (.response unauthorized))) = .login ∧
      (commit (fetchDocuments signedIn (.response unauthorized))).dashEffectToken = none ∧
      (commit (fetchDocuments signedIn (.response unauthorized))).dash.documents = .arr [] ∧
      (commit (fetchDocuments signedIn (.response unauthorized))).dash.documents
        ≠ signedIn.dash.documents) ∧
    ((listOk .null).ok = true ∧
      (fetchDocuments signedIn (.response (listOk .null))).dash.documents = .null ∧
      listView (fetchDocuments signedIn (.response (listOk .null))).dash = none ∧
      (commit (fetchDocuments signedIn (.response (listOk .null)))).crashed = true) := by
  refine ⟨⟨rfl, rfl, rfl, rfl, rfl, rfl, ?_⟩, rfl, rfl, rfl, rfl⟩
  have h1 : (commit (fetchDocuments signedIn (.response unauthorized))).dash.documents
      = .arr [] := rfl
  have h2 : signedIn.dash.documents = .arr [sampleDoc] := rfl
  rw [h1, h2]
  simp

/-- C7, amended.  For every state in which the dashboard is on screen, with document
list `D`, and every outcome of `fetchDocuments`:
* a 2xx response whose body parses to the list `L` sets `documents = L`, the same list
  in the same order; after the commit that follows, unless a component throws while
  rendering, the dashboard holds `L` and the list page shows its cards in that order;
* a non-2xx response with a status other than 401, a transport failure or a 2xx body
  that does not parse leaves `documents = D`, also after the commit that follows (which
  throws nothing when the list was not loading before);
* a response with status 401 leaves the cell as it is in the handler, but signs the user
  out: after the commit the login screen is shown and the dashboard is unmounted, so
  that its document list is discarded (back at `[]`). -/
theorem fetchDocuments_committed_documents (w : World) (o : Outcome)
    (hshown : dashboardShown w = true) :
    (∀ r L, o = .response r → r.ok = true → r.body = some (.arr L) →
      (fetchDocuments w o).dash.documents = .arr L ∧
      ((commit (fetchDocuments w o)).crashed = true ∨
        ((commit (fetchDocuments w o)).dash.documents = .arr L ∧
          (w.dash.page = .list →
            listView (commit (fetchDocuments w o)).dash = some (ListView.ofArray L))))) ∧
    ((o = .networkError ∨ ∃ r, o = .response r ∧
        ((r.ok = false ∧ r.status ≠ 401) ∨ (r.ok = true ∧ r.body = none))) →
      (fetchDocuments w o).dash.documents = w.dash.documents ∧
      ((commit (fetchDocuments w o)).crashed = true ∨
        (commit (fetchDocuments w o)).dash.documents = w.dash.documents) ∧
      (w.dash.loadingDocs = false →
        (commit (fetchDocuments w o)).crashed = false ∧
        (commit (fetchDocuments w o)).dash.documents = w.dash.documents)) ∧
    (∀ r, o = .response r → r.status = 401 →
      (fetchDocuments w o).dash.documents = w.dash.documents ∧
      (commit (fetchDocuments w o)).crashed = false ∧
      screen (commit (fetchDocuments w o)) = .login ∧
      (commit (fetchDocuments w o)).dashEffectToken = none ∧
      (commit (fetchDocuments w o)).dash.documents = .arr []) := by
  obtain ⟨hcr, hs, hthr, last, hd, hsame⟩ := (dashboardShown_iff w).mp hshown
  refine ⟨?_, ?_, ?_⟩
  · intro r L ho hok hb
    subst ho
    have h1 := fetchDocuments_response_ok w r _ hok hb
    refine ⟨by rw [h1], ?_⟩
    rcases commit_of_dashboard_kept w (fetchDocuments w (.response r)) hshown
      (by rw [h1]) (by rw [h1]) with hc | ⟨ht, _, hdash, _⟩
    · exact Or.inl hc
    · right
      rw [hdash]
      refine ⟨by rw [h1], ?_⟩
      intro hp
      have hs1 : screen (fetchDocuments w (.response r)) = .dashboard := by rw [h1]; exact hs
      have hd1 : (fetchDocuments w (.response r)).dashEffectToken = some last := by
        rw [h1]; exact hd
      have hcont := renderContent_of_not_throwing _ last hs1 hd1 ht
      have hp1 : (fetchDocuments w (.response r)).dash.page = .list := by rw [h1]; exact hp
      unfold renderContentThrows at hcont
      rw [hp1] at hcont
      rcases listView_of_array (fetchDocuments w (.response r)).dash L
        (by rw [h1]) (by rw [h1]) with hn | hsome
      · rw [hn] at hcont; exact absurd hcont (by simp)
      · exact hsome
  · intro hfail
    obtain ⟨entry, he⟩ := fetchDocuments_failure w o hfail
    refine ⟨by rw [he], ?_, ?_⟩
    · rcases commit_of_dashboard_kept w (fetchDocuments w o) hshown
        (by rw [he]) (by rw [he]) with hc | ⟨_, _, hdash, _⟩
      · exact Or.inl hc
      · exact Or.inr (by rw [hdash, he])
    · intro hld
      have hdash : (fetchDocuments w o).dash = w.dash := by
        rw [he]
        cases hw : w.dash
        rw [hw] at hld
        simp only at hld
        simp only [hld]
      have ht1 : renderThrows (fetchDocuments w o) = false := by
        have : renderThrows (fetchDocuments w o) = renderThrows w := by
          simp only [App.renderThrows, renderContentThrows, screen, hdash]
          rw [he]
        rw [this, hthr]
      have hcr1 : (fetchDocuments w o).crashed = false := by rw [he]; exact hcr
      have h2 := commit_of_not_throwing _ hcr1 ht1
      have hs1 : screen (fetchDocuments w o) = .dashboard := by rw [he]; exact hs
      have h3 := render_of_same_token (fetchDocuments w o) last hs1 (by rw [he]; exact hd)
        (by rw [he]; exact hsame)
      refine ⟨by rw [h2, render_crashed, hcr1], ?_⟩
      rw [h2, h3]
      exact congrArg DashState.documents hdash
  · intro r ho hst
    subst ho
    have hl := loading_of_dashboard w hs
    have h1 : fetchDocuments w (.response r) = _ :=
      fetchDocumentsSettle_401 (fetchDocumentsStart w.app.token w) r hst
    have hscr : screen (fetchDocuments w (.response r)) = .login := by
      rw [h1]
      exact screen_of_falsy_token _ hl rfl
    have hd1 : (fetchDocuments w (.response r)).dashEffectToken = some last := by
      rw [h1]; exact hd
    have ht1 : renderThrows (fetchDocuments w (.response r)) = false := by
      unfold App.renderThrows
      rw [hscr]
      simp [hd1]
    have hcr1 : (fetchDocuments w (.response r)).crashed = false := by rw [h1]; exact hcr
    have h2 := commit_of_not_throwing _ hcr1 ht1
    have h3 := render_of_login _ hscr
    refine ⟨by rw [h1]; rfl, by rw [h2, render_crashed, hcr1], by rw [h2, screen_render, hscr],
      by rw [h2, h3], by rw [h2, h3]; rfl⟩

/-- The amended C7 at the signed-in dashboard, whose list holds `sampleDoc` and is on
the list page: a 2xx answer with two documents is committed and shown as two cards in
that order, a 500 keeps the old list on screen, and a 401 discards it. -/
theorem fetchDocuments_committed_documents_witness :
    (dashboardShown signedIn = true ∧ signedIn.dash.page = .list ∧
      signedIn.dash.loadingDocs = false ∧ signedIn.dash.documents = .arr [sampleDoc] ∧
      (listOk (.arr [sampleDoc, .obj [("id", .num "2")]])).ok = true ∧
      serverError.ok = false ∧ serverError.status ≠ 401 ∧ unauthorized.status = 401) ∧
    ((commit (fetchDocuments signedIn
        (.response (listOk (.arr [sampleDoc, .obj [("id", .num "2")]]))))).crashed = false ∧
      (fetchDocuments signedIn
        (.response (listOk (.arr [sampleDoc, .obj [("id", .num "2")]])))).dash.documents
        = .arr [sampleDoc, .obj [("id", .num "2")]] ∧
      ((commit (fetchDocuments signedIn
          (.response (listOk (.arr [sampleDoc, .obj [("id", .num "2")]]))))).crashed = true ∨
        ((commit (fetchDocuments signedIn
          (.response (listOk (.arr [sampleDoc, .obj [("id", .num "2")]]))))).dash.documents
          = .arr [sampleDoc, .obj [("id", .num "2")]] ∧
        (signedIn.dash.page = .list →
          listView (commit (fetchDocuments signedIn
            (.response (listOk (.arr [sampleDoc, .obj [("id", .num "2")]]))))).dash
          = some (ListView.ofArray [sampleDoc, .obj [("id", .num "2")]]))))) ∧
    ((commit (fetchDocuments signedIn (.response serverError))).crashed = false ∧
      (commit (fetchDocuments signedIn (.response serverError))).dash.documents
        = signedIn.dash.documents) ∧
    (commit (fetchDocuments signedIn (.response unauthorized))).dash.documents = .arr [] :=
  ⟨⟨rfl, rfl, rfl, rfl, rfl, rfl, by decide, rfl⟩,
   ⟨rfl,
    (fetchDocuments_committed_documents signedIn
      (.response (listOk (.arr [sampleDoc, .obj [("id", .num "2")]]))) rfl).1 _ _ rfl rfl rfl⟩,
   ((fetchDocuments_committed_documents signedIn (.response serverError) rfl).2.1
      (Or.inr ⟨serverError, rfl, Or.inl ⟨rfl, by decide⟩⟩)).2.2 rfl,
   ((fetchDocuments_committed_documents signedIn (.response unauthorized) rfl).2.2
      unauthorized rfl rfl).2.2.2.2⟩

/-! ## C8: a failed refresh -/

/-- C8 fails on `fetchDocuments`.  At the signed-in dashboard, whose list holds
`sampleDoc`, a refresh answered with status 500 and a refresh whose transport fails
both leave, also after the commit, exactly the dashboard state that a successful
refresh returning the same list leaves, and the list view shows the same cards: the
failure goes to the console (`Failed to fetch documents:`, `Network error fetching
documents:`) and nowhere else; no fetch error is recorded in the state or displayed. -/
theorem fetchDocuments_failure_is_silent :
    serverError.ok = false ∧ serverError.status ≠ 401 ∧
    signedIn.dash.documents = .arr [sampleDoc] ∧
    (commit (fetchDocuments signedIn (.response serverError))).dash
      = (commit (fetchDocuments signedIn (.response (listOk (.arr [sampleDoc]))))).dash ∧
    (commit (fetchDocuments signedIn .networkError)).dash
      = (commit (fetchDocuments signedIn (.response (listOk (.arr [sampleDoc]))))).dash ∧
    listView (commit (fetchDocuments signedIn (.response serverError))).dash
      = some (.cards [sampleDoc]) ∧
    listView (commit (fetchDocuments signedIn .networkError)).dash
      = some (.cards [sampleDoc]) ∧
    listView (commit (fetchDocuments signedIn (.response (listOk (.arr [sampleDoc]))))).dash
      = some (.cards [sampleDoc]) ∧
    (commit (fetchDocuments signedIn (.response serverError))).console
      = signedIn.console ++
        [{ label := "Failed to fetch documents:", detail := some "Internal Server Error" }] ∧
    (commit (fetchDocuments signedIn .networkError)).console
      = signedIn.console ++
        [{ label := "Network error fetching documents:", detail := none }] :=
  ⟨rfl, by decide, rfl, rfl, rfl, rfl, rfl, rfl, rfl, rfl⟩

/-! ## C9: an empty query -/

/-- C9, as stated, fails in its last part.  The assistant view shows `old answer`, and
the user has replaced the question by three spaces, a state the client reaches.  The
submit button is disabled and submitting issues no request, but the answer is not
unset: `old answer` is still there and on display. -/
theorem submitQaForm_blank_query_keeps_old_answer_counterexample :
    isBlank atAssistantAnsweredBlank.dash.qaQuery = true ∧
    Reachable atAssistantAnsweredBlank ∧
    qaSubmitDisabled atAssistantAnsweredBlank = true ∧
    countQaRequests (commit (submitQaForm atAssistantAnsweredBlank (.response qaOk)))
      = countQaRequests atAssistantAnsweredBlank ∧
    (commit (submitQaForm atAssistantAnsweredBlank (.response qaOk))).dash.qaAnswer
      = .str "old answer" ∧
    (commit (submitQaForm atAssistantAnsweredBlank (.response qaOk))).dash.qaAnswer
      ≠ .null ∧
    (commit (submitQaForm atAssistantAnsweredBlank (.response qaOk))).dash.qaAnswer.truthy
      = true := by
  refine ⟨rfl, ?_, rfl, rfl, rfl, ?_, rfl⟩
  · exact Reachable.after_events _ _ (Reachable.after_events _ _ reachable_signedIn)
  · have h : (commit (submitQaForm atAssistantAnsweredBlank (.response qaOk))).dash.qaAnswer
        = .str "old answer" := rfl
    rw [h]
    simp

/-- C9, amended.  For every state whose query text is empty or has only white space,
the submit button of the Q&A form is disabled and submitting the form changes nothing:
no request is issued to the assistant endpoint and the answer and the error are what
they were, so that the answer is unset after it when it was unset before, and a
previous answer stays.  For a query with some other character and no query in flight
the button is enabled and submitting runs `handleQaQuery`. -/
theorem submitQaForm_blank_query_is_not_submitted (w : World) (o : Outcome) :
    (isBlank w.dash.qaQuery = true →
      qaSubmitDisabled w = true ∧
      submitQaForm w o = w ∧
      countQaRequests (submitQaForm w o) = countQaRequests w ∧
      (submitQaForm w o).requests = w.requests ∧
      (submitQaForm w o).dash.qaAnswer = w.dash.qaAnswer ∧
      (submitQaForm w o).dash.qaError = w.dash.qaError ∧
      (w.dash.qaAnswer = .null → (submitQaForm w o).dash.qaAnswer = .null)) ∧
    (isBlank w.dash.qaQuery = false → w.dash.loadingQa = false →
      qaSubmitDisabled w = false ∧ submitQaForm w o = handleQaQuery w o) := by
  constructor
  · intro hb
    have hd : qaSubmitDisabled w = true := by
      simp [qaSubmitDisabled, jsTrim_of_isBlank _ hb, JsVal.truthy]
    have hs : submitQaForm w o = w := by
      simp [submitQaForm, hd]
    rw [hs]
    exact ⟨hd, rfl, rfl, rfl, rfl, rfl, fun h => h⟩
  · intro hb hl
    have hd : qaSubmitDisabled w = false := by
      simp [qaSubmitDisabled, hl, JsVal.truthy, jsTrim_ne_empty_of_not_isBlank _ hb]
    exact ⟨hd, by simp [submitQaForm, hd]⟩

/-- The amended C9 at the assistant view with three spaces typed and no answer yet, and
at the same view with a question typed. -/
theorem submitQaForm_blank_query_is_not_submitted_witness :
    (isBlank atAssistantBlank.dash.qaQuery = true ∧
      atAssistantBlank.dash.qaAnswer = .null ∧
      isBlank atAssistantAnswered.dash.qaQuery = false ∧
      atAssistantAnswered.dash.loadingQa = false) ∧
    (qaSubmitDisabled atAssistantBlank = true ∧
      submitQaForm atAssistantBlank (.response qaOk) = atAssistantBlank ∧
      countQaRequests (submitQaForm atAssistantBlank (.response qaOk))
        = countQaRequests atAssistantBlank ∧
      (submitQaForm atAssistantBlank (.response qaOk)).dash.qaAnswer = .null) ∧
    (qaSubmitDisabled atAssistantAnswered = false ∧
      submitQaForm atAssistantAnswered (.response qaOk)
        = handleQaQuery atAssistantAnswered (.response qaOk)) :=
  have h1 := (submitQaForm_blank_query_is_not_submitted atAssistantBlank
    (.response qaOk)).1 rfl
  ⟨⟨rfl, rfl, rfl, rfl⟩, ⟨h1.1, h1.2.1, h1.2.2.1, h1.2.2.2.2.2.2 rfl⟩,
   (submitQaForm_blank_query_is_not_submitted atAssistantAnswered (.response qaOk)).2 rfl rfl⟩
/-! ## C10: no stale answer -/

/-- C10.  For every prior state, whatever its previous answer and error, and every
outcome of `handleQaQuery`: a 2xx response whose body has the answer `a` leaves
`qaAnswer = a` and `qaError` empty; a non-2xx response or a transport failure leaves
`qaAnswer = null` and a `qaError` that is shown (truthy).  In every case the answer and
the error after the call are not both shown, and both are the same whatever the prior
state was, so that nothing of a previous answer or error is left. -/
theorem handleQaQuery_no_stale_answer (w : World) (o : Outcome) :
    (∀ r data a, o = .response r → r.ok = true → r.body = some data →
      data.getField "answer" = some a →
      (handleQaQuery w o).dash.qaAnswer = a ∧ (handleQaQuery w o).dash.qaError = .str "") ∧
    ((o = .networkError ∨ ∃ r, o = .response r ∧ r.ok = false) →
      (handleQaQuery w o).dash.qaAnswer = .null ∧
      (handleQaQuery w o).dash.qaError.truthy = true) ∧
    ¬ ((handleQaQuery w o).dash.qaAnswer.truthy = true ∧
       (handleQaQuery w o).dash.qaError.truthy = true) ∧
    (∀ w' : World,
      (handleQaQuery w' o).dash.qaAnswer = (handleQaQuery w o).dash.qaAnswer ∧
      (handleQaQuery w' o).dash.qaError = (handleQaQuery w o).dash.qaError) ∧
    (handleQaQuery w o).dash.loadingQa = false := by
  refine ⟨?_, ?_, ?_, ?_, ?_⟩
  · intro r data a ho hok hb ha
    subst ho
    simp [handleQaQuery, handleQaQuerySettle, handleQaQueryTry, handleQaQueryStart, hok, hb, ha]
  · rintro (ho | ⟨r, ho, hok⟩)
    · subst ho
      simp [handleQaQuery, handleQaQuerySettle, handleQaQueryTry, handleQaQueryStart,
        JsVal.truthy]
    · subst ho
      cases hb : r.body with
      | none =>
        simp [handleQaQuery, handleQaQuerySettle, handleQaQueryTry, handleQaQueryStart,
          JsVal.truthy, hb]
      | some data =>
        cases hd : data.getField "detail" with
        | none =>
          simp [handleQaQuery, handleQaQuerySettle, handleQaQueryTry, handleQaQueryStart,
            JsVal.truthy, hb, hok, hd]
        | some detail =>
          simp [handleQaQuery, handleQaQuerySettle, handleQaQueryTry, handleQaQueryStart,
            hb, hok, hd]
          exact JsVal.truthy_or _ _ rfl
  · cases o with
    | networkError =>
      simp [handleQaQuery, handleQaQuerySettle, handleQaQueryTry, handleQaQueryStart,
        JsVal.truthy]
    | response r =>
      cases hb : r.body with
      | none =>
        simp [handleQaQuery, handleQaQuerySettle, handleQaQueryTry, handleQaQueryStart,
          JsVal.truthy, hb]
      | some data =>
        cases hok : r.ok with
        | true =>
          cases ha : data.getField "answer" with
          | none =>
            simp [handleQaQuery, handleQaQuerySettle, handleQaQueryTry, handleQaQueryStart,
              JsVal.truthy, hb, hok, ha]
          | some a =>
            simp [handleQaQuery, handleQaQuerySettle, handleQaQueryTry, handleQaQueryStart,
              JsVal.truthy, hb, hok, ha]
        | false =>
          cases hd : data.getField "detail" with
          | none =>
            simp [handleQaQuery, handleQaQuerySettle, handleQaQueryTry, handleQaQueryStart,
              JsVal.truthy, hb, hok, hd]
          | some detail =>
            simp [handleQaQuery, handleQaQuerySettle, handleQaQueryTry, handleQaQueryStart,
              JsVal.truthy, hb, hok, hd]
  · intro w'
    cases o with
    | networkError => exact ⟨rfl, rfl⟩
    | response r =>
      cases hb : r.body with
      | none =>
        simp [handleQaQuery, handleQaQuerySettle, handleQaQueryTry, handleQaQueryStart, hb]
      | some data =>
        cases hok : r.ok with
        | true =>
          cases ha : data.getField "answer" <;>
          simp [handleQaQuery, handleQaQuerySettle, handleQaQueryTry, handleQaQueryStart,
            hb, hok, ha]
        | false =>
          cases hd : data.getField "detail" <;>
          simp [handleQaQuery, handleQaQuerySettle, handleQaQueryTry, handleQaQueryStart,
            hb, hok, hd]
  · simp [handleQaQuery, handleQaQuerySettle]

/-- C10 at the assistant view that shows `old answer`: a 2xx answer replaces it, and a
500 and a transport failure clear it and show an error. -/
theorem handleQaQuery_no_stale_answer_witness :
    (atAssistantAnswered.dash.qaAnswer = .str "old answer" ∧ qaOk.ok = true ∧
      serverError.ok = false) ∧
    ((handleQaQuery atAssistantAnswered (.response qaOk)).dash.qaAnswer
        = .str "Arbitration is a private way to settle a dispute." ∧
      (handleQaQuery atAssistantAnswered (.response qaOk)).dash.qaError = .str "") ∧
    ((handleQaQuery atAssistantAnswered (.response serverError)).dash.qaAnswer = .null ∧
      (handleQaQuery atAssistantAnswered (.response serverError)).dash.qaError.truthy
        = true) ∧
    ((handleQaQuery atAssistantAnswered .networkError).dash.qaAnswer = .null ∧
      (handleQaQuery atAssistantAnswered .networkError).dash.qaError.truthy = true) :=
  ⟨⟨rfl, rfl, rfl⟩,
   (handleQaQuery_no_stale_answer atAssistantAnswered (.response qaOk)).1 qaOk
     (.obj [("answer", .str "Arbitration is a private way to settle a dispute.")])
     (.str "Arbitration is a private way to settle a dispute.") rfl rfl rfl rfl,
   (handleQaQuery_no_stale_answer atAssistantAnswered (.response serverError)).2.1
     (Or.inr ⟨serverError, rfl, rfl⟩),
   (handleQaQuery_no_stale_answer atAssistantAnswered .networkError).2.1 (Or.inl rfl)⟩

end Portal
